import Mathlib

/-!
# Boeffla sound (sound/soc/codecs/boeffla_sound.c)

A shallow embedding of the sysfs control surface of the Boeffla sound engine
for the wcd9335 codec: the module's six static variables, the four codec
gain registers it drives, the kernel log it prints to, and every show/store
callback of the file.

Conventions of the embedding

* C int values are Int; where the C code computes a value that can leave
  the 32-bit range (multiplication by -1, shift left by 8, addition) the
  result goes through wrap_int.
* x & 0x00FF is x % 256 and x >> 8 is x / 256 (floor), which is what these
  operators compute on a two's-complement int.
* A store callback returns ssize_t: either count or -EINVAL.
* A show callback is represented by the integers it hands to sprintf.
-/

namespace BoefflaSound

/-! ## Constants of boeffla_sound.h -/

/-- Constants that boeffla_sound.c takes from the header boeffla_sound.h.
The header is not part of the translated sources, so the constants are
parameters of every definition that uses them. -/
structure Config where
  BOEFFLA_SOUND_DEFAULT : Int
  DEBUG_DEFAULT : Int
  HEADPHONE_DEFAULT : Int
  HEADPHONE_MIN : Int
  HEADPHONE_MAX : Int
  SPEAKER_DEFAULT : Int
  SPEAKER_MIN : Int
  SPEAKER_MAX : Int
  MICLEVEL_DEFAULT_GENERAL : Int
  MICLEVEL_MIN_GENERAL : Int
  MICLEVEL_MAX_GENERAL : Int
deriving DecidableEq, Repr

/-- An assignment of the header constants used to instantiate the theorems
below at concrete inputs. -/
def sample_config : Config :=
  { BOEFFLA_SOUND_DEFAULT := 0
    DEBUG_DEFAULT := 0
    HEADPHONE_DEFAULT := 0
    HEADPHONE_MIN := -30
    HEADPHONE_MAX := 30
    SPEAKER_DEFAULT := 0
    SPEAKER_MIN := -30
    SPEAKER_MAX := 30
    MICLEVEL_DEFAULT_GENERAL := 0
    MICLEVEL_MIN_GENERAL := -10
    MICLEVEL_MAX_GENERAL := 20 }

/-- Linux errno value EINVAL (include/uapi/asm-generic/errno-base.h). -/
def EINVAL : Int := 22

/-! ## Machine arithmetic -/

/-- Reduction of an integer to the range of a 32-bit two's-complement C int. -/
def wrap_int (x : Int) : Int := (x + 2147483648) % 4294967296 - 2147483648

/-- C expression x << 8 on an int. -/
def shl8 (x : Int) : Int := wrap_int (x * 256)

/-- C expression x >> 8 on an int (arithmetic shift). -/
def shr8 (x : Int) : Int := x / 256

/-- C expression x & 0x00FF on an int. -/
def and_0x00FF (x : Int) : Int := x % 256

/-! ## Data model -/

/-- The static variables of boeffla_sound.c. -/
structure State where
  boeffla_sound : Int
  debug : Int
  headphone_volume_l : Int
  headphone_volume_r : Int
  speaker_volume : Int
  mic_level_general : Int
deriving DecidableEq, Repr

/-- The four wcd9335 gain registers reached through the get/set functions. -/
structure Codec where
  headphone_gain_l : Int
  headphone_gain_r : Int
  speaker_gain : Int
  mic_gain_general : Int
deriving DecidableEq, Repr

/-- One entry of the kernel log per printk call site of the file. -/
inductive Printk where
  | reset_done
  | hub_reset_done
  | status (v : Int)
  | headphone (l r : Int)
  | speaker (l r : Int)
  | mic (v : Int)
  | sysfs_failed
  | started
deriving DecidableEq, Repr

/-- Everything the callbacks can read or change: the static variables, the
codec registers and the kernel log. -/
structure World where
  st : State
  hw : Codec
  klog : List Printk
deriving DecidableEq, Repr

/-- Value of the static variables before any code of the module ran: C
zero-fills statics without an explicit value. -/
def static_zero : State :=
  { boeffla_sound := 0, debug := 0, headphone_volume_l := 0,
    headphone_volume_r := 0, speaker_volume := 0, mic_level_general := 0 }

/-- Appends one message to the kernel log. -/
def printk (w : World) (m : Printk) : World := { w with klog := w.klog ++ [m] }

/-! ## Register interface -/

/-- Modelled from the spec: the register access functions of the codec driver
are declared in boeffla_sound.h and defined outside this file. The spec gives
their contract: the headphone and mic registers hold a byte, the speaker
register an unsigned 16-bit word. A set keeps the low 8 bits of its argument. -/
def set_headphone_gain_l (hw : Codec) (gain : Int) : Codec :=
  { hw with headphone_gain_l := gain % 256 }

/-- Modelled from the spec: byte register, right headphone channel. -/
def set_headphone_gain_r (hw : Codec) (gain : Int) : Codec :=
  { hw with headphone_gain_r := gain % 256 }

/-- Modelled from the spec: packed unsigned 16-bit speaker register; a set
keeps the low 16 bits of its argument. -/
def set_speaker_gain (hw : Codec) (gain : Int) : Codec :=
  { hw with speaker_gain := gain % 65536 }

/-- Modelled from the spec: byte register, general microphone gain. -/
def set_mic_gain_general (hw : Codec) (gain : Int) : Codec :=
  { hw with mic_gain_general := gain % 256 }

/-- Modelled from the spec: reads the left headphone register. -/
def get_headphone_gain_l (hw : Codec) : Int := hw.headphone_gain_l

/-- Modelled from the spec: reads the right headphone register. -/
def get_headphone_gain_r (hw : Codec) : Int := hw.headphone_gain_r

/-- Modelled from the spec: reads the packed speaker register. -/
def get_speaker_gain (hw : Codec) : Int := hw.speaker_gain

/-- Modelled from the spec: reads the general microphone register. -/
def get_mic_gain_general (hw : Codec) : Int := hw.mic_gain_general

/-! ## Input scanning -/

/-- Modelled from the spec: numeric text parsing is a service the module
calls. A write buffer is represented by the integers that scanning converts
from its start, in order. This is sscanf with the one-integer format: the
number of conversions and the value (0 stands for a variable left
unassigned). -/
def sscanf_d (buf : List Int) : Nat × Int :=
  match buf with
  | [] => (0, 0)
  | v :: _ => (1, v)

/-- Modelled from the spec: sscanf with the two-integer format on the same
representation of the buffer. -/
def sscanf_d_d (buf : List Int) : Nat × Int × Int :=
  match buf with
  | [] => (0, 0, 0)
  | [a] => (1, a, 0)
  | a :: b :: _ => (2, a, b)

/-! ## Internal helper functions -/

/-- C function reset_boeffla_sound: all gain settings back to defaults. -/
def reset_boeffla_sound (cfg : Config) (w : World) : World :=
  let w := { w with st := { w.st with
    headphone_volume_l := cfg.HEADPHONE_DEFAULT
    headphone_volume_r := cfg.HEADPHONE_DEFAULT
    speaker_volume := cfg.SPEAKER_DEFAULT
    mic_level_general := cfg.MICLEVEL_DEFAULT_GENERAL } }
  if w.st.debug ≠ 0 then printk w Printk.reset_done else w

/-- C function reset_audio_hub: pushes the stored gains to the registers. -/
def reset_audio_hub (w : World) : World :=
  let hw := set_headphone_gain_l w.hw w.st.headphone_volume_l
  let hw := set_headphone_gain_r hw w.st.headphone_volume_r
  let tmp := shl8 w.st.speaker_volume
  let tmp := wrap_int (tmp + and_0x00FF (get_speaker_gain hw))
  let hw := set_speaker_gain hw tmp
  let hw := set_mic_gain_general hw w.st.mic_level_general
  let w := { w with hw := hw }
  if w.st.debug ≠ 0 then printk w Printk.hub_reset_done else w

/-! ## sysfs interface functions -/

/-- C function boeffla_sound_show: the value printed. -/
def boeffla_sound_show (w : World) : Int := w.st.boeffla_sound

/-- C function boeffla_sound_store: the master switch. -/
def boeffla_sound_store (cfg : Config) (w : World) (buf : List Int) (count : Nat) :
    Int × World :=
  let (ret, val) := sscanf_d buf
  if ret ≠ 1 then (-EINVAL, w)
  else if val = 0 ∨ val = 1 then
    let w := { w with st := { w.st with boeffla_sound := val } }
    let w := reset_boeffla_sound cfg w
    let w := reset_audio_hub w
    let w := if w.st.debug ≠ 0 then printk w (Printk.status w.st.boeffla_sound) else w
    ((count : Int), w)
  else ((count : Int), w)

/-- C function headphone_volume_show: the two values printed (Left, Right). -/
def headphone_volume_show (w : World) : Int × Int :=
  let val_l := get_headphone_gain_l w.hw
  let val_r := get_headphone_gain_r w.hw
  let val_l := if val_l > 127 then val_l - 256 else val_l
  let val_r := if val_r > 127 then val_r - 256 else val_r
  (val_l, val_r)

/-- C function headphone_volume_store. -/
def headphone_volume_store (cfg : Config) (w : World) (buf : List Int) (count : Nat) :
    Int × World :=
  if w.st.boeffla_sound = 0 then ((count : Int), w)
  else
    let (ret, val_l, val_r) := sscanf_d_d buf
    if ret ≠ 2 then (-EINVAL, w)
    else
      let val_l := if val_l > cfg.HEADPHONE_MAX then cfg.HEADPHONE_MAX else val_l
      let val_l := if val_l < cfg.HEADPHONE_MIN then cfg.HEADPHONE_MIN else val_l
      let val_r := if val_r > cfg.HEADPHONE_MAX then cfg.HEADPHONE_MAX else val_r
      let val_r := if val_r < cfg.HEADPHONE_MIN then cfg.HEADPHONE_MIN else val_r
      let w := { w with st := { w.st with
        headphone_volume_l := val_l, headphone_volume_r := val_r } }
      let hw := set_headphone_gain_l w.hw w.st.headphone_volume_l
      let hw := set_headphone_gain_r hw w.st.headphone_volume_r
      let w := { w with hw := hw }
      let w := if w.st.debug ≠ 0 then
          printk w (Printk.headphone w.st.headphone_volume_l w.st.headphone_volume_r)
        else w
      ((count : Int), w)

/-- C function speaker_volume_show: the two values printed (Left, Right). -/
def speaker_volume_show (w : World) : Int × Int :=
  let val := get_speaker_gain w.hw
  let val := wrap_int (shr8 val * -1)
  (val, val)

/-- C function speaker_volume_store. -/
def speaker_volume_store (cfg : Config) (w : World) (buf : List Int) (count : Nat) :
    Int × World :=
  if w.st.boeffla_sound = 0 then ((count : Int), w)
  else
    let (ret, val, _val_unused) := sscanf_d_d buf
    if ret ≠ 2 then (-EINVAL, w)
    else
      let val := if val > cfg.SPEAKER_MAX then cfg.SPEAKER_MAX else val
      let val := if val < cfg.SPEAKER_MIN then cfg.SPEAKER_MIN else val
      let w := { w with st := { w.st with speaker_volume := val } }
      let tmp := wrap_int (val * -1)
      let tmp := wrap_int (shl8 tmp + and_0x00FF (get_speaker_gain w.hw))
      let w := { w with hw := set_speaker_gain w.hw tmp }
      let w := if w.st.debug ≠ 0 then
          printk w (Printk.speaker w.st.speaker_volume w.st.speaker_volume)
        else w
      ((count : Int), w)

/-- C function mic_level_general_show: the value printed. -/
def mic_level_general_show (w : World) : Int :=
  let val := get_mic_gain_general w.hw
  if val > 127 then wrap_int (wrap_int (256 - val) * -1) else val

/-- C function mic_level_general_store. -/
def mic_level_general_store (cfg : Config) (w : World) (buf : List Int) (count : Nat) :
    Int × World :=
  if w.st.boeffla_sound = 0 then ((count : Int), w)
  else
    let (ret, val) := sscanf_d buf
    if ret ≠ 1 then (-EINVAL, w)
    else
      let val := if val > cfg.MICLEVEL_MAX_GENERAL then cfg.MICLEVEL_MAX_GENERAL else val
      let val := if val < cfg.MICLEVEL_MIN_GENERAL then cfg.MICLEVEL_MIN_GENERAL else val
      let w := { w with st := { w.st with mic_level_general := val } }
      let w := { w with hw := set_mic_gain_general w.hw w.st.mic_level_general }
      let w := if w.st.debug ≠ 0 then printk w (Printk.mic w.st.mic_level_general) else w
      ((count : Int), w)

/-- C function debug_show: the value printed. -/
def debug_show (w : World) : Int := w.st.debug

/-- C function debug_store. -/
def debug_store (w : World) (buf : List Int) (count : Nat) : Int × World :=
  let (ret, val) := sscanf_d buf
  if ret ≠ 1 then (-EINVAL, w)
  else if val = 0 ∨ val = 1 then
    ((count : Int), { w with st := { w.st with debug := val } })
  else ((count : Int), w)

/-! ## Driver entry point -/

/-- C function boeffla_sound_init. The flag sysfs_ok says whether
sysfs_create_group succeeded; when it failed the function returns before
touching the variables and no endpoint exists. -/
def boeffla_sound_init (cfg : Config) (sysfs_ok : Bool) (w : World) : Int × World :=
  if sysfs_ok = false then (0, printk w Printk.sysfs_failed)
  else
    let w := { w with st := { w.st with
      boeffla_sound := cfg.BOEFFLA_SOUND_DEFAULT, debug := cfg.DEBUG_DEFAULT } }
    let w := reset_boeffla_sound cfg w
    let w := printk w Printk.started
    (0, w)

/-! ## Sequences of writes -/

/-- A write to one of the five writable endpoints, with its buffer and count. -/
inductive Write where
  | master (buf : List Int) (count : Nat)
  | headphone (buf : List Int) (count : Nat)
  | speaker (buf : List Int) (count : Nat)
  | mic (buf : List Int) (count : Nat)
  | debug (buf : List Int) (count : Nat)
deriving DecidableEq, Repr

/-- Dispatch of a write to the store callback bound to its endpoint. -/
def write (cfg : Config) (w : World) : Write → Int × World
  | Write.master buf count => boeffla_sound_store cfg w buf count
  | Write.headphone buf count => headphone_volume_store cfg w buf count
  | Write.speaker buf count => speaker_volume_store cfg w buf count
  | Write.mic buf count => mic_level_general_store cfg w buf count
  | Write.debug buf count => debug_store w buf count

/-- World after a sequence of writes, performed in order. -/
def run (cfg : Config) (w : World) : List Write → World
  | [] => w
  | op :: ops => run cfg (write cfg w op).2 ops

/-! ## Vocabulary of the specification -/

/-- Clamping of v into the range from lo to hi, as the specification uses it:
cap at hi, then raise to lo. -/
def clamp (v lo hi : Int) : Int := max lo (min v hi)

/-- All four stored gains lie within their declared ranges. -/
def InRange (cfg : Config) (s : State) : Prop :=
  (cfg.HEADPHONE_MIN ≤ s.headphone_volume_l ∧ s.headphone_volume_l ≤ cfg.HEADPHONE_MAX) ∧
  (cfg.HEADPHONE_MIN ≤ s.headphone_volume_r ∧ s.headphone_volume_r ≤ cfg.HEADPHONE_MAX) ∧
  (cfg.SPEAKER_MIN ≤ s.speaker_volume ∧ s.speaker_volume ≤ cfg.SPEAKER_MAX) ∧
  (cfg.MICLEVEL_MIN_GENERAL ≤ s.mic_level_general ∧
    s.mic_level_general ≤ cfg.MICLEVEL_MAX_GENERAL)

instance (cfg : Config) (s : State) : Decidable (InRange cfg s) := by
  unfold InRange; infer_instance

/-- A world used to instantiate theorems: master switch on, debug on, and
registers holding arbitrary earlier contents. -/
def sample_world : World :=
  { st := { boeffla_sound := 1, debug := 1, headphone_volume_l := 3,
            headphone_volume_r := -4, speaker_volume := 7, mic_level_general := -2 }
    hw := { headphone_gain_l := 3, headphone_gain_r := 252,
            speaker_gain := 63829, mic_gain_general := 254 }
    klog := [] }

/-- The sample world with the master switch off. -/
def sample_world_off : World :=
  { sample_world with st := { sample_world.st with boeffla_sound := 0 } }

/-! ## Reads and runs of the whole module -/

/-- A read of one of the six readable endpoints. -/
inductive Read where
  | master
  | headphone
  | speaker
  | mic
  | debug
  | version
deriving DecidableEq, Repr

/-- What a show callback prints: one integer, two integers (Left, Right), or
the fixed text BOEFFLA_SOUND_VERSION. -/
inductive Shown where
  | one (v : Int)
  | two (l r : Int)
  | version_text
deriving DecidableEq, Repr

/-- C function version_show: prints the version constant of the header. -/
def version_show : Shown := Shown.version_text

/-- Dispatch of a read to the show callback bound to its endpoint. -/
def read (w : World) : Read → Shown
  | Read.master => Shown.one (boeffla_sound_show w)
  | Read.headphone => Shown.two (headphone_volume_show w).1 (headphone_volume_show w).2
  | Read.speaker => Shown.two (speaker_volume_show w).1 (speaker_volume_show w).2
  | Read.mic => Shown.one (mic_level_general_show w)
  | Read.debug => Shown.one (debug_show w)
  | Read.version => version_show

/-- An operation of the module: startup (with the outcome of
sysfs_create_group), a write to an endpoint, or a read of an endpoint. -/
inductive Op where
  | startup (sysfs_ok : Bool)
  | write (op : Write)
  | read (r : Read)
deriving DecidableEq, Repr

/-- World after one operation; a show callback assigns no variable and calls
no register set function. -/
def step (cfg : Config) (w : World) : Op → World
  | Op.startup sysfs_ok => (boeffla_sound_init cfg sysfs_ok w).2
  | Op.write op => (write cfg w op).2
  | Op.read _ => w

/-- World after a sequence of operations, performed in order. -/
def exec (cfg : Config) (w : World) : List Op → World
  | [] => w
  | op :: ops => exec cfg (step cfg w op) ops

/-- Two worlds agree on everything but the debug flag and the kernel log:
same master switch, same four stored gains, same register contents. -/
def SameButDebug (w1 w2 : World) : Prop :=
  w1.hw = w2.hw ∧
  w1.st.boeffla_sound = w2.st.boeffla_sound ∧
  w1.st.headphone_volume_l = w2.st.headphone_volume_l ∧
  w1.st.headphone_volume_r = w2.st.headphone_volume_r ∧
  w1.st.speaker_volume = w2.st.speaker_volume ∧
  w1.st.mic_level_general = w2.st.mic_level_general

instance (w1 w2 : World) : Decidable (SameButDebug w1 w2) := by
  unfold SameButDebug; infer_instance

/-- The value fits a C int (32 bits, two's complement). -/
def is_c_int (x : Int) : Prop := -2147483648 ≤ x ∧ x ≤ 2147483647

instance (x : Int) : Decidable (is_c_int x) := by
  unfold is_c_int; infer_instance

/-- A second assignment of the header constants, with the module enabled by
default and non-zero default gains. -/
def sample_config_alt : Config :=
  { BOEFFLA_SOUND_DEFAULT := 1
    DEBUG_DEFAULT := 0
    HEADPHONE_DEFAULT := 5
    HEADPHONE_MIN := -30
    HEADPHONE_MAX := 30
    SPEAKER_DEFAULT := -5
    SPEAKER_MIN := -30
    SPEAKER_MAX := 30
    MICLEVEL_DEFAULT_GENERAL := 3
    MICLEVEL_MIN_GENERAL := -10
    MICLEVEL_MAX_GENERAL := 20 }

/-- The sample world with the debug flag off. -/
def sample_world_quiet : World :=
  { sample_world with st := { sample_world.st with debug := 0 } }


/-! ## Lemmas about the callbacks -/

theorem seq_clamp_eq (v lo hi : Int) :
    (if (if v > hi then hi else v) < lo then lo else (if v > hi then hi else v))
      = clamp v lo hi := by
  unfold clamp
  split_ifs <;> omega

theorem reset_boeffla_sound_st (cfg : Config) (w : World) :
    (reset_boeffla_sound cfg w).st =
      { w.st with
        headphone_volume_l := cfg.HEADPHONE_DEFAULT
        headphone_volume_r := cfg.HEADPHONE_DEFAULT
        speaker_volume := cfg.SPEAKER_DEFAULT
        mic_level_general := cfg.MICLEVEL_DEFAULT_GENERAL } := by
  unfold reset_boeffla_sound printk
  dsimp only
  split_ifs <;> rfl

theorem reset_boeffla_sound_hw (cfg : Config) (w : World) :
    (reset_boeffla_sound cfg w).hw = w.hw := by
  unfold reset_boeffla_sound printk
  dsimp only
  split_ifs <;> rfl

theorem reset_audio_hub_st (w : World) : (reset_audio_hub w).st = w.st := by
  unfold reset_audio_hub printk
  dsimp only
  split_ifs <;> rfl

theorem reset_audio_hub_hw (w : World) :
    (reset_audio_hub w).hw =
      set_mic_gain_general
        (set_speaker_gain
          (set_headphone_gain_r (set_headphone_gain_l w.hw w.st.headphone_volume_l)
            w.st.headphone_volume_r)
          (wrap_int (shl8 w.st.speaker_volume + and_0x00FF (get_speaker_gain w.hw))))
        w.st.mic_level_general := by
  unfold reset_audio_hub printk
  dsimp only
  split_ifs <;> rfl


theorem headphone_volume_store_off (cfg : Config) (w : World) (buf : List Int) (count : Nat)
    (hoff : w.st.boeffla_sound = 0) :
    headphone_volume_store cfg w buf count = ((count : Int), w) := by
  unfold headphone_volume_store
  simp [hoff]

theorem speaker_volume_store_off (cfg : Config) (w : World) (buf : List Int) (count : Nat)
    (hoff : w.st.boeffla_sound = 0) :
    speaker_volume_store cfg w buf count = ((count : Int), w) := by
  unfold speaker_volume_store
  simp [hoff]

theorem mic_level_general_store_off (cfg : Config) (w : World) (buf : List Int) (count : Nat)
    (hoff : w.st.boeffla_sound = 0) :
    mic_level_general_store cfg w buf count = ((count : Int), w) := by
  unfold mic_level_general_store
  simp [hoff]

theorem headphone_volume_store_on (cfg : Config) (w : World) (l r : Int) (rest : List Int)
    (count : Nat) (hon : w.st.boeffla_sound ≠ 0) :
    (headphone_volume_store cfg w (l :: r :: rest) count).1 = (count : Int) ∧
    (headphone_volume_store cfg w (l :: r :: rest) count).2.st =
      { w.st with
        headphone_volume_l := clamp l cfg.HEADPHONE_MIN cfg.HEADPHONE_MAX
        headphone_volume_r := clamp r cfg.HEADPHONE_MIN cfg.HEADPHONE_MAX } ∧
    (headphone_volume_store cfg w (l :: r :: rest) count).2.hw =
      set_headphone_gain_r
        (set_headphone_gain_l w.hw (clamp l cfg.HEADPHONE_MIN cfg.HEADPHONE_MAX))
        (clamp r cfg.HEADPHONE_MIN cfg.HEADPHONE_MAX) := by
  unfold headphone_volume_store
  simp only [if_neg hon, sscanf_d_d, ne_eq, not_true_eq_false, if_false, seq_clamp_eq, printk]
  split_ifs <;> (refine ⟨?_, ?_, ?_⟩ <;> trivial)

theorem speaker_volume_store_on (cfg : Config) (w : World) (v u : Int) (rest : List Int)
    (count : Nat) (hon : w.st.boeffla_sound ≠ 0) :
    (speaker_volume_store cfg w (v :: u :: rest) count).1 = (count : Int) ∧
    (speaker_volume_store cfg w (v :: u :: rest) count).2.st =
      { w.st with speaker_volume := clamp v cfg.SPEAKER_MIN cfg.SPEAKER_MAX } ∧
    (speaker_volume_store cfg w (v :: u :: rest) count).2.hw =
      set_speaker_gain w.hw
        (wrap_int (shl8 (wrap_int (clamp v cfg.SPEAKER_MIN cfg.SPEAKER_MAX * -1))
          + and_0x00FF (get_speaker_gain w.hw))) := by
  unfold speaker_volume_store
  simp only [if_neg hon, sscanf_d_d, ne_eq, not_true_eq_false, if_false, seq_clamp_eq, printk]
  split_ifs <;> (refine ⟨?_, ?_, ?_⟩ <;> trivial)

theorem mic_level_general_store_on (cfg : Config) (w : World) (v : Int) (rest : List Int)
    (count : Nat) (hon : w.st.boeffla_sound ≠ 0) :
    (mic_level_general_store cfg w (v :: rest) count).1 = (count : Int) ∧
    (mic_level_general_store cfg w (v :: rest) count).2.st =
      { w.st with
        mic_level_general := clamp v cfg.MICLEVEL_MIN_GENERAL cfg.MICLEVEL_MAX_GENERAL } ∧
    (mic_level_general_store cfg w (v :: rest) count).2.hw =
      set_mic_gain_general w.hw
        (clamp v cfg.MICLEVEL_MIN_GENERAL cfg.MICLEVEL_MAX_GENERAL) := by
  unfold mic_level_general_store
  simp only [if_neg hon, sscanf_d, ne_eq, not_true_eq_false, if_false, seq_clamp_eq, printk]
  split_ifs <;> (refine ⟨?_, ?_, ?_⟩ <;> trivial)

theorem boeffla_sound_store_accept (cfg : Config) (w : World) (v : Int) (rest : List Int)
    (count : Nat) (hv : v = 0 ∨ v = 1) :
    (boeffla_sound_store cfg w (v :: rest) count).1 = (count : Int) ∧
    (boeffla_sound_store cfg w (v :: rest) count).2.st =
      { boeffla_sound := v
        debug := w.st.debug
        headphone_volume_l := cfg.HEADPHONE_DEFAULT
        headphone_volume_r := cfg.HEADPHONE_DEFAULT
        speaker_volume := cfg.SPEAKER_DEFAULT
        mic_level_general := cfg.MICLEVEL_DEFAULT_GENERAL } ∧
    (boeffla_sound_store cfg w (v :: rest) count).2.hw =
      set_mic_gain_general
        (set_speaker_gain
          (set_headphone_gain_r (set_headphone_gain_l w.hw cfg.HEADPHONE_DEFAULT)
            cfg.HEADPHONE_DEFAULT)
          (wrap_int (shl8 cfg.SPEAKER_DEFAULT + and_0x00FF (get_speaker_gain w.hw))))
        cfg.MICLEVEL_DEFAULT_GENERAL := by
  unfold boeffla_sound_store
  simp only [sscanf_d, ne_eq, not_true_eq_false, if_false, if_pos hv, printk]
  split_ifs <;>
    simp only [reset_audio_hub_st, reset_audio_hub_hw, reset_boeffla_sound_st,
      reset_boeffla_sound_hw] <;> (refine ⟨?_, ?_, ?_⟩ <;> trivial)

theorem boeffla_sound_store_reject (cfg : Config) (w : World) (v : Int) (rest : List Int)
    (count : Nat) (hv : ¬ (v = 0 ∨ v = 1)) :
    boeffla_sound_store cfg w (v :: rest) count = ((count : Int), w) := by
  unfold boeffla_sound_store
  simp only [sscanf_d, ne_eq, not_true_eq_false, if_false, if_neg hv]

theorem debug_store_st (w : World) (buf : List Int) (count : Nat) :
    (debug_store w buf count).2.hw = w.hw ∧
    (debug_store w buf count).2.klog = w.klog ∧
    (debug_store w buf count).2.st.boeffla_sound = w.st.boeffla_sound ∧
    (debug_store w buf count).2.st.headphone_volume_l = w.st.headphone_volume_l ∧
    (debug_store w buf count).2.st.headphone_volume_r = w.st.headphone_volume_r ∧
    (debug_store w buf count).2.st.speaker_volume = w.st.speaker_volume ∧
    (debug_store w buf count).2.st.mic_level_general = w.st.mic_level_general := by
  unfold debug_store
  rcases buf with _ | ⟨v, rest⟩
  · simp [sscanf_d]
  · simp only [sscanf_d, ne_eq, not_true_eq_false, if_false]
    split_ifs <;> simp

theorem clamp_bounds (v lo hi : Int) (h : lo ≤ hi) :
    lo ≤ clamp v lo hi ∧ clamp v lo hi ≤ hi := by
  unfold clamp
  omega

theorem clamp_eq_self (v lo hi : Int) (h1 : lo ≤ v) (h2 : v ≤ hi) : clamp v lo hi = v := by
  unfold clamp
  omega

theorem boeffla_sound_store_einval (cfg : Config) (w : World) (buf : List Int) (count : Nat)
    (h : (sscanf_d buf).1 ≠ 1) :
    boeffla_sound_store cfg w buf count = (-EINVAL, w) := by
  unfold boeffla_sound_store
  rcases buf with _ | ⟨v, rest⟩
  · simp [sscanf_d]
  · simp [sscanf_d] at h

theorem debug_store_einval (w : World) (buf : List Int) (count : Nat)
    (h : (sscanf_d buf).1 ≠ 1) :
    debug_store w buf count = (-EINVAL, w) := by
  unfold debug_store
  rcases buf with _ | ⟨v, rest⟩
  · simp [sscanf_d]
  · simp [sscanf_d] at h

theorem headphone_volume_store_einval (cfg : Config) (w : World) (buf : List Int)
    (count : Nat) (hon : w.st.boeffla_sound ≠ 0) (h : (sscanf_d_d buf).1 ≠ 2) :
    headphone_volume_store cfg w buf count = (-EINVAL, w) := by
  unfold headphone_volume_store
  rcases buf with _ | ⟨a, _ | ⟨b, rest⟩⟩
  · simp [sscanf_d_d, hon]
  · simp [sscanf_d_d, hon]
  · simp [sscanf_d_d] at h

theorem speaker_volume_store_einval (cfg : Config) (w : World) (buf : List Int)
    (count : Nat) (hon : w.st.boeffla_sound ≠ 0) (h : (sscanf_d_d buf).1 ≠ 2) :
    speaker_volume_store cfg w buf count = (-EINVAL, w) := by
  unfold speaker_volume_store
  rcases buf with _ | ⟨a, _ | ⟨b, rest⟩⟩
  · simp [sscanf_d_d, hon]
  · simp [sscanf_d_d, hon]
  · simp [sscanf_d_d] at h

theorem mic_level_general_store_einval (cfg : Config) (w : World) (buf : List Int)
    (count : Nat) (hon : w.st.boeffla_sound ≠ 0) (h : (sscanf_d buf).1 ≠ 1) :
    mic_level_general_store cfg w buf count = (-EINVAL, w) := by
  unfold mic_level_general_store
  rcases buf with _ | ⟨v, rest⟩
  · simp [sscanf_d, hon]
  · simp [sscanf_d] at h

theorem write_preserves_InRange (cfg : Config)
    (hH : cfg.HEADPHONE_MIN ≤ cfg.HEADPHONE_DEFAULT ∧ cfg.HEADPHONE_DEFAULT ≤ cfg.HEADPHONE_MAX)
    (hS : cfg.SPEAKER_MIN ≤ cfg.SPEAKER_DEFAULT ∧ cfg.SPEAKER_DEFAULT ≤ cfg.SPEAKER_MAX)
    (hM : cfg.MICLEVEL_MIN_GENERAL ≤ cfg.MICLEVEL_DEFAULT_GENERAL ∧
      cfg.MICLEVEL_DEFAULT_GENERAL ≤ cfg.MICLEVEL_MAX_GENERAL)
    (w : World) (op : Write) (h : InRange cfg w.st) :
    InRange cfg (write cfg w op).2.st := by
  cases op with
  | master buf count =>
    simp only [write]
    rcases buf with _ | ⟨v, rest⟩
    · rw [boeffla_sound_store_einval cfg w [] count (by simp [sscanf_d])]
      exact h
    · by_cases hv : v = 0 ∨ v = 1
      · rw [(boeffla_sound_store_accept cfg w v rest count hv).2.1]
        exact ⟨hH, hH, hS, hM⟩
      · rw [boeffla_sound_store_reject cfg w v rest count hv]
        exact h
  | headphone buf count =>
    simp only [write]
    by_cases hon : w.st.boeffla_sound = 0
    · rw [headphone_volume_store_off cfg w buf count hon]
      exact h
    · rcases buf with _ | ⟨a, _ | ⟨b, rest⟩⟩
      · rw [headphone_volume_store_einval cfg w [] count hon (by simp [sscanf_d_d])]
        exact h
      · rw [headphone_volume_store_einval cfg w [a] count hon (by simp [sscanf_d_d])]
        exact h
      · rw [(headphone_volume_store_on cfg w a b rest count hon).2.1]
        exact ⟨clamp_bounds a _ _ (le_trans hH.1 hH.2),
          clamp_bounds b _ _ (le_trans hH.1 hH.2), h.2.2.1, h.2.2.2⟩
  | speaker buf count =>
    simp only [write]
    by_cases hon : w.st.boeffla_sound = 0
    · rw [speaker_volume_store_off cfg w buf count hon]
      exact h
    · rcases buf with _ | ⟨a, _ | ⟨b, rest⟩⟩
      · rw [speaker_volume_store_einval cfg w [] count hon (by simp [sscanf_d_d])]
        exact h
      · rw [speaker_volume_store_einval cfg w [a] count hon (by simp [sscanf_d_d])]
        exact h
      · rw [(speaker_volume_store_on cfg w a b rest count hon).2.1]
        exact ⟨h.1, h.2.1, clamp_bounds a _ _ (le_trans hS.1 hS.2), h.2.2.2⟩
  | mic buf count =>
    simp only [write]
    by_cases hon : w.st.boeffla_sound = 0
    · rw [mic_level_general_store_off cfg w buf count hon]
      exact h
    · rcases buf with _ | ⟨a, rest⟩
      · rw [mic_level_general_store_einval cfg w [] count hon (by simp [sscanf_d])]
        exact h
      · rw [(mic_level_general_store_on cfg w a rest count hon).2.1]
        exact ⟨h.1, h.2.1, h.2.2.1, clamp_bounds a _ _ (le_trans hM.1 hM.2)⟩
  | debug buf count =>
    simp only [write]
    obtain ⟨_, _, _, h1, h2, h3, h4⟩ := debug_store_st w buf count
    unfold InRange
    rw [h1, h2, h3, h4]
    exact h

theorem run_preserves_InRange (cfg : Config)
    (hH : cfg.HEADPHONE_MIN ≤ cfg.HEADPHONE_DEFAULT ∧ cfg.HEADPHONE_DEFAULT ≤ cfg.HEADPHONE_MAX)
    (hS : cfg.SPEAKER_MIN ≤ cfg.SPEAKER_DEFAULT ∧ cfg.SPEAKER_DEFAULT ≤ cfg.SPEAKER_MAX)
    (hM : cfg.MICLEVEL_MIN_GENERAL ≤ cfg.MICLEVEL_DEFAULT_GENERAL ∧
      cfg.MICLEVEL_DEFAULT_GENERAL ≤ cfg.MICLEVEL_MAX_GENERAL)
    (ops : List Write) : ∀ w : World, InRange cfg w.st → InRange cfg (run cfg w ops).st := by
  induction ops with
  | nil => intro w h; exact h
  | cons op ops ih =>
    intro w h
    exact ih _ (write_preserves_InRange cfg hH hS hM w op h)

theorem boeffla_sound_init_st (cfg : Config) (w : World) :
    (boeffla_sound_init cfg true w).2.st =
      { boeffla_sound := cfg.BOEFFLA_SOUND_DEFAULT
        debug := cfg.DEBUG_DEFAULT
        headphone_volume_l := cfg.HEADPHONE_DEFAULT
        headphone_volume_r := cfg.HEADPHONE_DEFAULT
        speaker_volume := cfg.SPEAKER_DEFAULT
        mic_level_general := cfg.MICLEVEL_DEFAULT_GENERAL } := by
  unfold boeffla_sound_init
  simp only [Bool.true_eq_false, if_false, printk, reset_boeffla_sound_st]

theorem clamp_eq_ite (v lo hi : Int) (h : lo ≤ hi) :
    clamp v lo hi = (if v < lo then lo else if v > hi then hi else v) := by
  unfold clamp
  split_ifs <;> omega

theorem pack_bytes (a r : Int) :
    and_0x00FF (wrap_int (shl8 a + and_0x00FF r) % 65536) = and_0x00FF r ∧
    and_0x00FF (shr8 (wrap_int (shl8 a + and_0x00FF r) % 65536)) = a % 256 := by
  unfold and_0x00FF shr8 shl8 wrap_int
  constructor <;> omega

theorem byte_to_signed_of_mod (c : Int) (h1 : -128 ≤ c) (h2 : c ≤ 127) :
    (if c % 256 > 127 then c % 256 - 256 else c % 256) = c := by
  split_ifs <;> omega

theorem pack_idem (a r : Int) :
    wrap_int (shl8 a + and_0x00FF (wrap_int (shl8 a + and_0x00FF r) % 65536)) % 65536
      = wrap_int (shl8 a + and_0x00FF r) % 65536 := by
  unfold and_0x00FF shl8 wrap_int
  omega

theorem boeffla_sound_store_twice (cfg : Config) (w : World) (buf : List Int) (count : Nat) :
    (boeffla_sound_store cfg (boeffla_sound_store cfg w buf count).2 buf count).2.st
      = (boeffla_sound_store cfg w buf count).2.st ∧
    (boeffla_sound_store cfg (boeffla_sound_store cfg w buf count).2 buf count).2.hw
      = (boeffla_sound_store cfg w buf count).2.hw ∧
    (boeffla_sound_store cfg (boeffla_sound_store cfg w buf count).2 buf count).1
      = (boeffla_sound_store cfg w buf count).1 := by
  rcases buf with _ | ⟨v, rest⟩
  · simp [boeffla_sound_store_einval cfg _ [] count (by simp [sscanf_d])]
  · by_cases hv : v = 0 ∨ v = 1
    · obtain ⟨h1, h2, h3⟩ := boeffla_sound_store_accept cfg w v rest count hv
      obtain ⟨k1, k2, k3⟩ := boeffla_sound_store_accept cfg
        (boeffla_sound_store cfg w (v :: rest) count).2 v rest count hv
      refine ⟨?_, ?_, by rw [k1, h1]⟩
      · rw [k2, h2]
      · rw [k3, h3]
        simp only [set_mic_gain_general, set_speaker_gain, set_headphone_gain_r,
          set_headphone_gain_l, get_speaker_gain, pack_idem]
    · simp [boeffla_sound_store_reject cfg _ v rest count hv]

theorem headphone_volume_store_twice (cfg : Config) (w : World) (buf : List Int)
    (count : Nat) :
    (headphone_volume_store cfg (headphone_volume_store cfg w buf count).2 buf count).2.st
      = (headphone_volume_store cfg w buf count).2.st ∧
    (headphone_volume_store cfg (headphone_volume_store cfg w buf count).2 buf count).2.hw
      = (headphone_volume_store cfg w buf count).2.hw ∧
    (headphone_volume_store cfg (headphone_volume_store cfg w buf count).2 buf count).1
      = (headphone_volume_store cfg w buf count).1 := by
  by_cases hon : w.st.boeffla_sound = 0
  · simp [headphone_volume_store_off cfg w buf count hon]
  · rcases buf with _ | ⟨a, _ | ⟨b, rest⟩⟩
    · simp [headphone_volume_store_einval cfg w [] count hon (by simp [sscanf_d_d])]
    · simp [headphone_volume_store_einval cfg w [a] count hon (by simp [sscanf_d_d])]
    · obtain ⟨h1, h2, h3⟩ := headphone_volume_store_on cfg w a b rest count hon
      have hon2 : (headphone_volume_store cfg w (a :: b :: rest) count).2.st.boeffla_sound ≠ 0 := by
        rw [h2]; exact hon
      obtain ⟨k1, k2, k3⟩ := headphone_volume_store_on cfg
        (headphone_volume_store cfg w (a :: b :: rest) count).2 a b rest count hon2
      refine ⟨?_, ?_, by rw [k1, h1]⟩
      · rw [k2, h2]
      · rw [k3, h3]
        rfl

theorem speaker_volume_store_twice (cfg : Config) (w : World) (buf : List Int)
    (count : Nat) :
    (speaker_volume_store cfg (speaker_volume_store cfg w buf count).2 buf count).2.st
      = (speaker_volume_store cfg w buf count).2.st ∧
    (speaker_volume_store cfg (speaker_volume_store cfg w buf count).2 buf count).2.hw
      = (speaker_volume_store cfg w buf count).2.hw ∧
    (speaker_volume_store cfg (speaker_volume_store cfg w buf count).2 buf count).1
      = (speaker_volume_store cfg w buf count).1 := by
  by_cases hon : w.st.boeffla_sound = 0
  · simp [speaker_volume_store_off cfg w buf count hon]
  · rcases buf with _ | ⟨a, _ | ⟨b, rest⟩⟩
    · simp [speaker_volume_store_einval cfg w [] count hon (by simp [sscanf_d_d])]
    · simp [speaker_volume_store_einval cfg w [a] count hon (by simp [sscanf_d_d])]
    · obtain ⟨h1, h2, h3⟩ := speaker_volume_store_on cfg w a b rest count hon
      have hon2 : (speaker_volume_store cfg w (a :: b :: rest) count).2.st.boeffla_sound ≠ 0 := by
        rw [h2]; exact hon
      obtain ⟨k1, k2, k3⟩ := speaker_volume_store_on cfg
        (speaker_volume_store cfg w (a :: b :: rest) count).2 a b rest count hon2
      refine ⟨?_, ?_, by rw [k1, h1]⟩
      · rw [k2, h2]
      · rw [k3, h3]
        simp only [set_speaker_gain, get_speaker_gain, pack_idem]

theorem mic_level_general_store_twice (cfg : Config) (w : World) (buf : List Int)
    (count : Nat) :
    (mic_level_general_store cfg (mic_level_general_store cfg w buf count).2 buf count).2.st
      = (mic_level_general_store cfg w buf count).2.st ∧
    (mic_level_general_store cfg (mic_level_general_store cfg w buf count).2 buf count).2.hw
      = (mic_level_general_store cfg w buf count).2.hw ∧
    (mic_level_general_store cfg (mic_level_general_store cfg w buf count).2 buf count).1
      = (mic_level_general_store cfg w buf count).1 := by
  by_cases hon : w.st.boeffla_sound = 0
  · simp [mic_level_general_store_off cfg w buf count hon]
  · rcases buf with _ | ⟨a, rest⟩
    · simp [mic_level_general_store_einval cfg w [] count hon (by simp [sscanf_d])]
    · obtain ⟨h1, h2, h3⟩ := mic_level_general_store_on cfg w a rest count hon
      have hon2 : (mic_level_general_store cfg w (a :: rest) count).2.st.boeffla_sound ≠ 0 := by
        rw [h2]; exact hon
      obtain ⟨k1, k2, k3⟩ := mic_level_general_store_on cfg
        (mic_level_general_store cfg w (a :: rest) count).2 a rest count hon2
      refine ⟨?_, ?_, by rw [k1, h1]⟩
      · rw [k2, h2]
      · rw [k3, h3]
        rfl

theorem debug_store_twice (w : World) (buf : List Int) (count : Nat) :
    (debug_store (debug_store w buf count).2 buf count).2.st = (debug_store w buf count).2.st ∧
    (debug_store (debug_store w buf count).2 buf count).2.hw = (debug_store w buf count).2.hw ∧
    (debug_store (debug_store w buf count).2 buf count).1 = (debug_store w buf count).1 := by
  unfold debug_store
  rcases buf with _ | ⟨v, rest⟩
  · simp [sscanf_d]
  · simp only [sscanf_d, ne_eq, not_true_eq_false, if_false]
    split_ifs <;> simp

/-! ## The claims -/

/-- C1 as stated fails on the path where sysfs_create_group fails: with
HEADPHONE_MIN = 1, HEADPHONE_DEFAULT = 5, HEADPHONE_MAX = 30 the assumption
MIN ≤ DEFAULT ≤ MAX holds for each gain, boeffla_sound_init returns before
assigning the defaults, and the zero-filled headphone gains lie below
HEADPHONE_MIN in the state reached by the empty sequence of writes. -/
theorem failed_startup_leaves_gains_at_zero :
    (({ sample_config_alt with HEADPHONE_MIN := 1 } : Config).HEADPHONE_MIN
        ≤ ({ sample_config_alt with HEADPHONE_MIN := 1 } : Config).HEADPHONE_DEFAULT ∧
      ({ sample_config_alt with HEADPHONE_MIN := 1 } : Config).HEADPHONE_DEFAULT
        ≤ ({ sample_config_alt with HEADPHONE_MIN := 1 } : Config).HEADPHONE_MAX) ∧
    (({ sample_config_alt with HEADPHONE_MIN := 1 } : Config).SPEAKER_MIN
        ≤ ({ sample_config_alt with HEADPHONE_MIN := 1 } : Config).SPEAKER_DEFAULT ∧
      ({ sample_config_alt with HEADPHONE_MIN := 1 } : Config).SPEAKER_DEFAULT
        ≤ ({ sample_config_alt with HEADPHONE_MIN := 1 } : Config).SPEAKER_MAX) ∧
    (({ sample_config_alt with HEADPHONE_MIN := 1 } : Config).MICLEVEL_MIN_GENERAL
        ≤ ({ sample_config_alt with HEADPHONE_MIN := 1 } : Config).MICLEVEL_DEFAULT_GENERAL ∧
      ({ sample_config_alt with HEADPHONE_MIN := 1 } : Config).MICLEVEL_DEFAULT_GENERAL
        ≤ ({ sample_config_alt with HEADPHONE_MIN := 1 } : Config).MICLEVEL_MAX_GENERAL) ∧
    (run { sample_config_alt with HEADPHONE_MIN := 1 }
      (boeffla_sound_init { sample_config_alt with HEADPHONE_MIN := 1 } false
        { st := static_zero, hw := sample_world.hw, klog := [] }).2
      []).st.headphone_volume_l = 0 ∧
    ¬ InRange { sample_config_alt with HEADPHONE_MIN := 1 }
      (run { sample_config_alt with HEADPHONE_MIN := 1 }
        (boeffla_sound_init { sample_config_alt with HEADPHONE_MIN := 1 } false
          { st := static_zero, hw := sample_world.hw, klog := [] }).2
        []).st := by
  decide

/-- C1 amended: when MIN ≤ DEFAULT ≤ MAX holds for each gain, and startup
registered the control surface (sysfs_create_group succeeded) or the
variables before startup already lay within their ranges, then in every
state reached from startup (boeffla_sound_init, from any earlier contents of
the registers) by any sequence of writes to the master switch, headphone,
speaker, mic and debug endpoints with arbitrary buffers, the stored
headphone, speaker and mic gains lie within their declared ranges. -/
theorem stored_gains_in_range (cfg : Config)
    (hH : cfg.HEADPHONE_MIN ≤ cfg.HEADPHONE_DEFAULT ∧ cfg.HEADPHONE_DEFAULT ≤ cfg.HEADPHONE_MAX)
    (hS : cfg.SPEAKER_MIN ≤ cfg.SPEAKER_DEFAULT ∧ cfg.SPEAKER_DEFAULT ≤ cfg.SPEAKER_MAX)
    (hM : cfg.MICLEVEL_MIN_GENERAL ≤ cfg.MICLEVEL_DEFAULT_GENERAL ∧
      cfg.MICLEVEL_DEFAULT_GENERAL ≤ cfg.MICLEVEL_MAX_GENERAL)
    (sysfs_ok : Bool) (w0 : World) (ops : List Write)
    (hstart : sysfs_ok = true ∨ InRange cfg w0.st) :
    InRange cfg (run cfg (boeffla_sound_init cfg sysfs_ok w0).2 ops).st := by
  apply run_preserves_InRange cfg hH hS hM
  cases sysfs_ok with
  | true =>
    rw [boeffla_sound_init_st]
    exact ⟨hH, hH, hS, hM⟩
  | false =>
    rcases hstart with h | h
    · exact absurd h (by decide)
    · unfold boeffla_sound_init
      simpa [printk] using h

/-- Instance of C1 amended. The sample constants, started from zeroed
variables with the control surface registered, then a master switch write of
1, a headphone write far out of range, a speaker write, a malformed mic write
and a debug write; and the same constants, whose ranges contain 0, with
registration failed and no write. -/
theorem stored_gains_in_range_witness :
    (sample_config.HEADPHONE_MIN ≤ sample_config.HEADPHONE_DEFAULT ∧
      sample_config.HEADPHONE_DEFAULT ≤ sample_config.HEADPHONE_MAX) ∧
    (sample_config.SPEAKER_MIN ≤ sample_config.SPEAKER_DEFAULT ∧
      sample_config.SPEAKER_DEFAULT ≤ sample_config.SPEAKER_MAX) ∧
    (sample_config.MICLEVEL_MIN_GENERAL ≤ sample_config.MICLEVEL_DEFAULT_GENERAL ∧
      sample_config.MICLEVEL_DEFAULT_GENERAL ≤ sample_config.MICLEVEL_MAX_GENERAL) ∧
    InRange sample_config
      (run sample_config
        (boeffla_sound_init sample_config true
          { st := static_zero, hw := sample_world.hw, klog := [] }).2
        [Write.master [1] 2, Write.headphone [1000, -1000] 11, Write.speaker [-77, 0] 6,
          Write.mic [] 1, Write.debug [1] 2]).st ∧
    InRange sample_config static_zero ∧
    InRange sample_config
      (run sample_config
        (boeffla_sound_init sample_config false
          { st := static_zero, hw := sample_world.hw, klog := [] }).2 []).st :=
  ⟨by decide, by decide, by decide,
    stored_gains_in_range sample_config (by decide) (by decide) (by decide) true _ _
      (Or.inl rfl),
    by decide,
    stored_gains_in_range sample_config (by decide) (by decide) (by decide) false
      { st := static_zero, hw := sample_world.hw, klog := [] } [] (Or.inr (by decide))⟩

/-- C2: when the master switch is off (boeffla_sound == 0), a write to the
headphone, speaker or mic endpoint returns count and leaves the variables,
the registers (and the kernel log) exactly as they were, whatever the buffer. -/
theorem gain_write_discarded_when_off (cfg : Config) (w : World) (buf : List Int)
    (count : Nat) (hoff : w.st.boeffla_sound = 0) :
    headphone_volume_store cfg w buf count = ((count : Int), w) ∧
    speaker_volume_store cfg w buf count = ((count : Int), w) ∧
    mic_level_general_store cfg w buf count = ((count : Int), w) :=
  ⟨headphone_volume_store_off cfg w buf count hoff,
    speaker_volume_store_off cfg w buf count hoff,
    mic_level_general_store_off cfg w buf count hoff⟩

/-- Instance of C2: the sample world with the switch off and the buffer 5 -5. -/
theorem gain_write_discarded_when_off_witness :
    sample_world_off.st.boeffla_sound = 0 ∧
    headphone_volume_store sample_config sample_world_off [5, -5] 5
      = (((5 : Nat) : Int), sample_world_off) ∧
    speaker_volume_store sample_config sample_world_off [5, -5] 5
      = (((5 : Nat) : Int), sample_world_off) ∧
    mic_level_general_store sample_config sample_world_off [5, -5] 5
      = (((5 : Nat) : Int), sample_world_off) :=
  ⟨by decide, gain_write_discarded_when_off sample_config sample_world_off [5, -5] 5 (by decide)⟩

/-- C3: an accepted master switch write (first scanned value 0 or 1, equal to
the current switch or not) returns count, sets the switch to the written
value, keeps the debug flag, sets the four stored gains to their defaults
whatever they were, and writes all four registers from those defaults: both
headphone registers and the mic register receive the default, the speaker
register receives the default shifted into the high byte plus the low byte
the register held. -/
theorem master_write_resets_and_resyncs (cfg : Config) (w : World) (v : Int)
    (rest : List Int) (count : Nat) (hv : v = 0 ∨ v = 1) :
    (boeffla_sound_store cfg w (v :: rest) count).1 = (count : Int) ∧
    (boeffla_sound_store cfg w (v :: rest) count).2.st =
      { boeffla_sound := v
        debug := w.st.debug
        headphone_volume_l := cfg.HEADPHONE_DEFAULT
        headphone_volume_r := cfg.HEADPHONE_DEFAULT
        speaker_volume := cfg.SPEAKER_DEFAULT
        mic_level_general := cfg.MICLEVEL_DEFAULT_GENERAL } ∧
    (boeffla_sound_store cfg w (v :: rest) count).2.hw =
      set_mic_gain_general
        (set_speaker_gain
          (set_headphone_gain_r (set_headphone_gain_l w.hw cfg.HEADPHONE_DEFAULT)
            cfg.HEADPHONE_DEFAULT)
          (wrap_int (shl8 cfg.SPEAKER_DEFAULT + and_0x00FF (get_speaker_gain w.hw))))
        cfg.MICLEVEL_DEFAULT_GENERAL :=
  boeffla_sound_store_accept cfg w v rest count hv

/-- Instance of C3: writing 1 while the switch is already 1. -/
theorem master_write_resets_and_resyncs_witness :
    ((1 : Int) = 0 ∨ (1 : Int) = 1) ∧
    (boeffla_sound_store sample_config sample_world [1] 2).1 = ((2 : Nat) : Int) ∧
    (boeffla_sound_store sample_config sample_world [1] 2).2.st =
      { boeffla_sound := 1
        debug := sample_world.st.debug
        headphone_volume_l := sample_config.HEADPHONE_DEFAULT
        headphone_volume_r := sample_config.HEADPHONE_DEFAULT
        speaker_volume := sample_config.SPEAKER_DEFAULT
        mic_level_general := sample_config.MICLEVEL_DEFAULT_GENERAL } ∧
    (boeffla_sound_store sample_config sample_world [1] 2).2.hw =
      set_mic_gain_general
        (set_speaker_gain
          (set_headphone_gain_r
            (set_headphone_gain_l sample_world.hw sample_config.HEADPHONE_DEFAULT)
            sample_config.HEADPHONE_DEFAULT)
          (wrap_int (shl8 sample_config.SPEAKER_DEFAULT
            + and_0x00FF (get_speaker_gain sample_world.hw))))
        sample_config.MICLEVEL_DEFAULT_GENERAL :=
  ⟨by decide, master_write_resets_and_resyncs sample_config sample_world 1 [] 2 (by decide)⟩


/-- C4: with the master switch on and HEADPHONE_MIN ≤ HEADPHONE_MAX, a
headphone write of (left, right) returns count, stores the clamp of left as
headphone_volume_l and the clamp of right as headphone_volume_r (each from
its own input only: below MIN gives MIN, above MAX gives MAX, otherwise the
input itself), and pushes exactly the two stored values to the left and the
right headphone register. -/
theorem headphone_write_stores_clamped (cfg : Config) (w : World) (left right : Int)
    (rest : List Int) (count : Nat) (hon : w.st.boeffla_sound ≠ 0)
    (hrange : cfg.HEADPHONE_MIN ≤ cfg.HEADPHONE_MAX) :
    (headphone_volume_store cfg w (left :: right :: rest) count).1 = (count : Int) ∧
    (headphone_volume_store cfg w (left :: right :: rest) count).2.st.headphone_volume_l
      = clamp left cfg.HEADPHONE_MIN cfg.HEADPHONE_MAX ∧
    (headphone_volume_store cfg w (left :: right :: rest) count).2.st.headphone_volume_r
      = clamp right cfg.HEADPHONE_MIN cfg.HEADPHONE_MAX ∧
    clamp left cfg.HEADPHONE_MIN cfg.HEADPHONE_MAX
      = (if left < cfg.HEADPHONE_MIN then cfg.HEADPHONE_MIN
          else if left > cfg.HEADPHONE_MAX then cfg.HEADPHONE_MAX else left) ∧
    clamp right cfg.HEADPHONE_MIN cfg.HEADPHONE_MAX
      = (if right < cfg.HEADPHONE_MIN then cfg.HEADPHONE_MIN
          else if right > cfg.HEADPHONE_MAX then cfg.HEADPHONE_MAX else right) ∧
    (headphone_volume_store cfg w (left :: right :: rest) count).2.hw =
      set_headphone_gain_r
        (set_headphone_gain_l w.hw
          (headphone_volume_store cfg w (left :: right :: rest) count).2.st.headphone_volume_l)
        (headphone_volume_store cfg w (left :: right :: rest) count).2.st.headphone_volume_r := by
  obtain ⟨h1, h2, h3⟩ := headphone_volume_store_on cfg w left right rest count hon
  refine ⟨h1, by rw [h2], by rw [h2], clamp_eq_ite left _ _ hrange,
    clamp_eq_ite right _ _ hrange, ?_⟩
  rw [h3, h2]

/-- Instance of C4: the buffer 50 -50 against the range -30..30. -/
theorem headphone_write_stores_clamped_witness :
    sample_world.st.boeffla_sound ≠ 0 ∧
    sample_config.HEADPHONE_MIN ≤ sample_config.HEADPHONE_MAX ∧
    (headphone_volume_store sample_config sample_world [50, -50] 7).2.st.headphone_volume_l
      = 30 ∧
    (headphone_volume_store sample_config sample_world [50, -50] 7).2.st.headphone_volume_r
      = -30 :=
  ⟨by decide, by decide,
    (headphone_write_stores_clamped sample_config sample_world 50 (-50) [] 7
      (by decide) (by decide)).2.1.trans (by decide),
    (headphone_write_stores_clamped sample_config sample_world 50 (-50) [] 7
      (by decide) (by decide)).2.2.1.trans (by decide)⟩

/-- C5: with the master switch on, a speaker write with first value v, on a
speaker register holding any content r, returns count, stores
speaker_volume = clamp(v, SPEAKER_MIN, SPEAKER_MAX), and leaves a register
whose low byte (& 0x00FF) is the low byte of r and whose high byte
((new >> 8) & 0x00FF) is the negated clamped value modulo 256. -/
theorem speaker_write_packs_register (cfg : Config) (w : World) (v u : Int)
    (rest : List Int) (count : Nat) (hon : w.st.boeffla_sound ≠ 0) :
    (speaker_volume_store cfg w (v :: u :: rest) count).1 = (count : Int) ∧
    (speaker_volume_store cfg w (v :: u :: rest) count).2.st.speaker_volume
      = clamp v cfg.SPEAKER_MIN cfg.SPEAKER_MAX ∧
    and_0x00FF (get_speaker_gain (speaker_volume_store cfg w (v :: u :: rest) count).2.hw)
      = and_0x00FF (get_speaker_gain w.hw) ∧
    and_0x00FF (shr8 (get_speaker_gain (speaker_volume_store cfg w (v :: u :: rest) count).2.hw))
      = (-(clamp v cfg.SPEAKER_MIN cfg.SPEAKER_MAX)) % 256 := by
  obtain ⟨h1, h2, h3⟩ := speaker_volume_store_on cfg w v u rest count hon
  refine ⟨h1, by rw [h2], ?_, ?_⟩
  · rw [h3]
    simp only [set_speaker_gain, get_speaker_gain]
    exact (pack_bytes _ _).1
  · rw [h3]
    simp only [set_speaker_gain, get_speaker_gain]
    rw [(pack_bytes _ _).2]
    unfold wrap_int
    omega

/-- Instance of C5: the buffer 10 10 on a register holding 0xF955: the new
register is 0xF655, high byte 246 = -10 mod 256, low byte 0x55 kept. -/
theorem speaker_write_packs_register_witness :
    sample_world.st.boeffla_sound ≠ 0 ∧
    and_0x00FF (get_speaker_gain (speaker_volume_store sample_config sample_world [10, 10] 6).2.hw)
      = 85 ∧
    and_0x00FF
      (shr8 (get_speaker_gain (speaker_volume_store sample_config sample_world [10, 10] 6).2.hw))
      = 246 :=
  ⟨by decide,
    (speaker_write_packs_register sample_config sample_world 10 10 [] 6
      (by decide)).2.2.1.trans (by decide),
    (speaker_write_packs_register sample_config sample_world 10 10 [] 6
      (by decide)).2.2.2.trans (by decide)⟩

/-- C6: headphone round trip. With the master switch on, byte-wide headphone
registers and -128 ≤ HEADPHONE_MIN ≤ HEADPHONE_MAX ≤ 127, a headphone write
of (l, r) followed by a headphone read reports Left = clamp(l) and
Right = clamp(r) as signed values. -/
theorem headphone_round_trip (cfg : Config) (w : World) (l r : Int) (rest : List Int)
    (count : Nat) (hon : w.st.boeffla_sound ≠ 0)
    (hlo : -128 ≤ cfg.HEADPHONE_MIN) (hrange : cfg.HEADPHONE_MIN ≤ cfg.HEADPHONE_MAX)
    (hhi : cfg.HEADPHONE_MAX ≤ 127) :
    headphone_volume_show (headphone_volume_store cfg w (l :: r :: rest) count).2
      = (clamp l cfg.HEADPHONE_MIN cfg.HEADPHONE_MAX,
         clamp r cfg.HEADPHONE_MIN cfg.HEADPHONE_MAX) := by
  obtain ⟨_, _, h3⟩ := headphone_volume_store_on cfg w l r rest count hon
  have bl := clamp_bounds l _ _ hrange
  have br := clamp_bounds r _ _ hrange
  unfold headphone_volume_show
  rw [h3]
  simp only [get_headphone_gain_l, get_headphone_gain_r, set_headphone_gain_l,
    set_headphone_gain_r, Prod.mk.injEq]
  exact ⟨byte_to_signed_of_mod _ (by omega) (by omega),
    byte_to_signed_of_mod _ (by omega) (by omega)⟩

/-- Instance of C6: writing 5 -5 reads back as Left 5, Right -5. -/
theorem headphone_round_trip_witness :
    sample_world.st.boeffla_sound ≠ 0 ∧
    -128 ≤ sample_config.HEADPHONE_MIN ∧
    sample_config.HEADPHONE_MIN ≤ sample_config.HEADPHONE_MAX ∧
    sample_config.HEADPHONE_MAX ≤ 127 ∧
    headphone_volume_show (headphone_volume_store sample_config sample_world [5, -5] 5).2
      = (5, -5) :=
  ⟨by decide, by decide, by decide, by decide,
    (headphone_round_trip sample_config sample_world 5 (-5) [] 5
      (by decide) (by decide) (by decide) (by decide)).trans (by decide)⟩

/-- C7: mic round trip. With the master switch on, a byte-wide mic register
and -128 ≤ MICLEVEL_MIN_GENERAL ≤ MICLEVEL_MAX_GENERAL ≤ 127, a mic write of
v returns count, stores mic_level_general = clamp(v), pushes the stored value
to the mic register, and a following mic read reports that clamped value. -/
theorem mic_round_trip (cfg : Config) (w : World) (v : Int) (rest : List Int)
    (count : Nat) (hon : w.st.boeffla_sound ≠ 0)
    (hlo : -128 ≤ cfg.MICLEVEL_MIN_GENERAL)
    (hrange : cfg.MICLEVEL_MIN_GENERAL ≤ cfg.MICLEVEL_MAX_GENERAL)
    (hhi : cfg.MICLEVEL_MAX_GENERAL ≤ 127) :
    (mic_level_general_store cfg w (v :: rest) count).1 = (count : Int) ∧
    (mic_level_general_store cfg w (v :: rest) count).2.st.mic_level_general
      = clamp v cfg.MICLEVEL_MIN_GENERAL cfg.MICLEVEL_MAX_GENERAL ∧
    (mic_level_general_store cfg w (v :: rest) count).2.hw
      = set_mic_gain_general w.hw
          (mic_level_general_store cfg w (v :: rest) count).2.st.mic_level_general ∧
    mic_level_general_show (mic_level_general_store cfg w (v :: rest) count).2
      = clamp v cfg.MICLEVEL_MIN_GENERAL cfg.MICLEVEL_MAX_GENERAL := by
  obtain ⟨h1, h2, h3⟩ := mic_level_general_store_on cfg w v rest count hon
  have b := clamp_bounds v _ _ hrange
  refine ⟨h1, by rw [h2], by rw [h3, h2], ?_⟩
  unfold mic_level_general_show
  rw [h3]
  simp only [get_mic_gain_general, set_mic_gain_general]
  unfold wrap_int
  split_ifs <;> omega

/-- Instance of C7: writing -100 against the range -10..20 reads back -10. -/
theorem mic_round_trip_witness :
    sample_world.st.boeffla_sound ≠ 0 ∧
    -128 ≤ sample_config.MICLEVEL_MIN_GENERAL ∧
    sample_config.MICLEVEL_MIN_GENERAL ≤ sample_config.MICLEVEL_MAX_GENERAL ∧
    sample_config.MICLEVEL_MAX_GENERAL ≤ 127 ∧
    mic_level_general_show (mic_level_general_store sample_config sample_world [-100] 5).2
      = -10 :=
  ⟨by decide, by decide, by decide, by decide,
    (mic_round_trip sample_config sample_world (-100) [] 5
      (by decide) (by decide) (by decide) (by decide)).2.2.2.trans (by decide)⟩

/-- C8: idempotence. For each of the five write endpoints, any prior
variables and register contents and any buffer, doing the same write twice in
a row leaves, after the second write, the same stored variables and the same
register contents as after the first, and returns the same value. -/
theorem write_twice_idempotent (cfg : Config) (w : World) (op : Write) :
    (write cfg (write cfg w op).2 op).2.st = (write cfg w op).2.st ∧
    (write cfg (write cfg w op).2 op).2.hw = (write cfg w op).2.hw ∧
    (write cfg (write cfg w op).2 op).1 = (write cfg w op).1 := by
  cases op with
  | master buf count => exact boeffla_sound_store_twice cfg w buf count
  | headphone buf count => exact headphone_volume_store_twice cfg w buf count
  | speaker buf count => exact speaker_volume_store_twice cfg w buf count
  | mic buf count => exact mic_level_general_store_twice cfg w buf count
  | debug buf count => exact debug_store_twice w buf count

/-- C9 as stated fails: with the master switch off, a headphone write whose
buffer holds no integer at all (zero conversions where two are expected)
returns count 3, not -EINVAL; so do a speaker write holding one integer and
an empty mic write. -/
theorem malformed_gain_write_off_returns_count :
    sample_world_off.st.boeffla_sound = 0 ∧
    (sscanf_d_d []).1 ≠ 2 ∧
    (headphone_volume_store sample_config sample_world_off [] 3).1 = 3 ∧
    (headphone_volume_store sample_config sample_world_off [] 3).1 ≠ -EINVAL ∧
    (sscanf_d_d [7]).1 ≠ 2 ∧
    (speaker_volume_store sample_config sample_world_off [7] 3).1 ≠ -EINVAL ∧
    (sscanf_d []).1 ≠ 1 ∧
    (mic_level_general_store sample_config sample_world_off [] 3).1 ≠ -EINVAL := by
  decide

/-- C9 amended: a buffer that does not scan into the expected number of
integers (one for master switch, mic and debug; two for headphone and
speaker) leaves variables, registers and log unchanged at every endpoint and
in every state. The master switch and debug endpoints return -EINVAL in
every state; the headphone, speaker and mic endpoints return -EINVAL when the
master switch is on and count when it is off. -EINVAL is never a byte count. -/
theorem malformed_write_result (cfg : Config) (w : World) (buf1 buf2 : List Int)
    (count : Nat) (h1 : (sscanf_d buf1).1 ≠ 1) (h2 : (sscanf_d_d buf2).1 ≠ 2) :
    boeffla_sound_store cfg w buf1 count = (-EINVAL, w) ∧
    debug_store w buf1 count = (-EINVAL, w) ∧
    headphone_volume_store cfg w buf2 count
      = (if w.st.boeffla_sound = 0 then (count : Int) else -EINVAL, w) ∧
    speaker_volume_store cfg w buf2 count
      = (if w.st.boeffla_sound = 0 then (count : Int) else -EINVAL, w) ∧
    mic_level_general_store cfg w buf1 count
      = (if w.st.boeffla_sound = 0 then (count : Int) else -EINVAL, w) ∧
    -EINVAL ≠ (count : Int) := by
  refine ⟨boeffla_sound_store_einval cfg w buf1 count h1, debug_store_einval w buf1 count h1,
    ?_, ?_, ?_, ?_⟩
  · by_cases hon : w.st.boeffla_sound = 0
    · rw [headphone_volume_store_off cfg w buf2 count hon, if_pos hon]
    · rw [headphone_volume_store_einval cfg w buf2 count hon h2, if_neg hon]
  · by_cases hon : w.st.boeffla_sound = 0
    · rw [speaker_volume_store_off cfg w buf2 count hon, if_pos hon]
    · rw [speaker_volume_store_einval cfg w buf2 count hon h2, if_neg hon]
  · by_cases hon : w.st.boeffla_sound = 0
    · rw [mic_level_general_store_off cfg w buf1 count hon, if_pos hon]
    · rw [mic_level_general_store_einval cfg w buf1 count hon h1, if_neg hon]
  · unfold EINVAL
    omega

/-- Instance of C9 amended: master switch on, an empty buffer for the
one-integer endpoints and a one-integer buffer for the two-integer ones. -/
theorem malformed_write_result_witness :
    (sscanf_d []).1 ≠ 1 ∧ (sscanf_d_d [7]).1 ≠ 2 ∧
    boeffla_sound_store sample_config sample_world [] 1 = (-EINVAL, sample_world) ∧
    debug_store sample_world [] 1 = (-EINVAL, sample_world) ∧
    headphone_volume_store sample_config sample_world [7] 1 = (-EINVAL, sample_world) ∧
    speaker_volume_store sample_config sample_world [7] 1 = (-EINVAL, sample_world) ∧
    mic_level_general_store sample_config sample_world [] 1 = (-EINVAL, sample_world) :=
  have h := malformed_write_result sample_config sample_world [] [7] 1 (by decide) (by decide)
  ⟨by decide, by decide, h.1, h.2.1, h.2.2.1.trans (by decide), h.2.2.2.1.trans (by decide),
    h.2.2.2.2.1.trans (by decide)⟩

/-- C10: a master switch write whose scanned value is neither 0 nor 1
returns count and changes nothing: master switch, debug flag, the four
stored gains, the four registers (and the log) stay as they were; there is
no reset and no resync. -/
theorem master_write_other_value_ignored (cfg : Config) (w : World) (v : Int)
    (rest : List Int) (count : Nat) (hv : v ≠ 0 ∧ v ≠ 1) :
    boeffla_sound_store cfg w (v :: rest) count = ((count : Int), w) :=
  boeffla_sound_store_reject cfg w v rest count (by omega)

/-- Instance of C10: writing 2 to the master switch of the sample world. -/
theorem master_write_other_value_ignored_witness :
    ((2 : Int) ≠ 0 ∧ (2 : Int) ≠ 1) ∧
    boeffla_sound_store sample_config sample_world [2] 2 = (((2 : Nat) : Int), sample_world) :=
  ⟨by decide, master_write_other_value_ignored sample_config sample_world 2 [] 2 (by decide)⟩

/-! ## Lemmas about the debug flag -/

theorem boeffla_sound_store_congr (cfg : Config) (w1 w2 : World) (buf : List Int)
    (count : Nat) (h : SameButDebug w1 w2) :
    (boeffla_sound_store cfg w1 buf count).1 = (boeffla_sound_store cfg w2 buf count).1 ∧
    SameButDebug (boeffla_sound_store cfg w1 buf count).2
      (boeffla_sound_store cfg w2 buf count).2 := by
  obtain ⟨hhw, hb, hl, hr, hs, hm⟩ := h
  rcases buf with _ | ⟨v, rest⟩
  · rw [boeffla_sound_store_einval cfg w1 [] count (by simp [sscanf_d]),
      boeffla_sound_store_einval cfg w2 [] count (by simp [sscanf_d])]
    exact ⟨rfl, hhw, hb, hl, hr, hs, hm⟩
  · by_cases hv : v = 0 ∨ v = 1
    · obtain ⟨h1, h2, h3⟩ := boeffla_sound_store_accept cfg w1 v rest count hv
      obtain ⟨k1, k2, k3⟩ := boeffla_sound_store_accept cfg w2 v rest count hv
      refine ⟨by rw [h1, k1], ?_⟩
      unfold SameButDebug
      rw [h2, h3, k2, k3, hhw]
      exact ⟨rfl, rfl, rfl, rfl, rfl, rfl⟩
    · rw [boeffla_sound_store_reject cfg w1 v rest count hv,
        boeffla_sound_store_reject cfg w2 v rest count hv]
      exact ⟨rfl, hhw, hb, hl, hr, hs, hm⟩

theorem headphone_volume_store_congr (cfg : Config) (w1 w2 : World) (buf : List Int)
    (count : Nat) (h : SameButDebug w1 w2) :
    (headphone_volume_store cfg w1 buf count).1 = (headphone_volume_store cfg w2 buf count).1 ∧
    SameButDebug (headphone_volume_store cfg w1 buf count).2
      (headphone_volume_store cfg w2 buf count).2 := by
  obtain ⟨hhw, hb, hl, hr, hs, hm⟩ := h
  by_cases hon : w1.st.boeffla_sound = 0
  · rw [headphone_volume_store_off cfg w1 buf count hon,
      headphone_volume_store_off cfg w2 buf count (hb ▸ hon)]
    exact ⟨rfl, hhw, hb, hl, hr, hs, hm⟩
  · have hon2 : w2.st.boeffla_sound ≠ 0 := hb ▸ hon
    rcases buf with _ | ⟨a, _ | ⟨b, rest⟩⟩
    · rw [headphone_volume_store_einval cfg w1 [] count hon (by simp [sscanf_d_d]),
        headphone_volume_store_einval cfg w2 [] count hon2 (by simp [sscanf_d_d])]
      exact ⟨rfl, hhw, hb, hl, hr, hs, hm⟩
    · rw [headphone_volume_store_einval cfg w1 [a] count hon (by simp [sscanf_d_d]),
        headphone_volume_store_einval cfg w2 [a] count hon2 (by simp [sscanf_d_d])]
      exact ⟨rfl, hhw, hb, hl, hr, hs, hm⟩
    · obtain ⟨h1, h2, h3⟩ := headphone_volume_store_on cfg w1 a b rest count hon
      obtain ⟨k1, k2, k3⟩ := headphone_volume_store_on cfg w2 a b rest count hon2
      refine ⟨by rw [h1, k1], ?_⟩
      unfold SameButDebug
      rw [h2, h3, k2, k3, hhw]
      exact ⟨rfl, hb, rfl, rfl, hs, hm⟩

theorem speaker_volume_store_congr (cfg : Config) (w1 w2 : World) (buf : List Int)
    (count : Nat) (h : SameButDebug w1 w2) :
    (speaker_volume_store cfg w1 buf count).1 = (speaker_volume_store cfg w2 buf count).1 ∧
    SameButDebug (speaker_volume_store cfg w1 buf count).2
      (speaker_volume_store cfg w2 buf count).2 := by
  obtain ⟨hhw, hb, hl, hr, hs, hm⟩ := h
  by_cases hon : w1.st.boeffla_sound = 0
  · rw [speaker_volume_store_off cfg w1 buf count hon,
      speaker_volume_store_off cfg w2 buf count (hb ▸ hon)]
    exact ⟨rfl, hhw, hb, hl, hr, hs, hm⟩
  · have hon2 : w2.st.boeffla_sound ≠ 0 := hb ▸ hon
    rcases buf with _ | ⟨a, _ | ⟨b, rest⟩⟩
    · rw [speaker_volume_store_einval cfg w1 [] count hon (by simp [sscanf_d_d]),
        speaker_volume_store_einval cfg w2 [] count hon2 (by simp [sscanf_d_d])]
      exact ⟨rfl, hhw, hb, hl, hr, hs, hm⟩
    · rw [speaker_volume_store_einval cfg w1 [a] count hon (by simp [sscanf_d_d]),
        speaker_volume_store_einval cfg w2 [a] count hon2 (by simp [sscanf_d_d])]
      exact ⟨rfl, hhw, hb, hl, hr, hs, hm⟩
    · obtain ⟨h1, h2, h3⟩ := speaker_volume_store_on cfg w1 a b rest count hon
      obtain ⟨k1, k2, k3⟩ := speaker_volume_store_on cfg w2 a b rest count hon2
      refine ⟨by rw [h1, k1], ?_⟩
      unfold SameButDebug
      rw [h2, h3, k2, k3, hhw]
      exact ⟨rfl, hb, hl, hr, rfl, hm⟩

theorem mic_level_general_store_congr (cfg : Config) (w1 w2 : World) (buf : List Int)
    (count : Nat) (h : SameButDebug w1 w2) :
    (mic_level_general_store cfg w1 buf count).1
      = (mic_level_general_store cfg w2 buf count).1 ∧
    SameButDebug (mic_level_general_store cfg w1 buf count).2
      (mic_level_general_store cfg w2 buf count).2 := by
  obtain ⟨hhw, hb, hl, hr, hs, hm⟩ := h
  by_cases hon : w1.st.boeffla_sound = 0
  · rw [mic_level_general_store_off cfg w1 buf count hon,
      mic_level_general_store_off cfg w2 buf count (hb ▸ hon)]
    exact ⟨rfl, hhw, hb, hl, hr, hs, hm⟩
  · have hon2 : w2.st.boeffla_sound ≠ 0 := hb ▸ hon
    rcases buf with _ | ⟨a, rest⟩
    · rw [mic_level_general_store_einval cfg w1 [] count hon (by simp [sscanf_d]),
        mic_level_general_store_einval cfg w2 [] count hon2 (by simp [sscanf_d])]
      exact ⟨rfl, hhw, hb, hl, hr, hs, hm⟩
    · obtain ⟨h1, h2, h3⟩ := mic_level_general_store_on cfg w1 a rest count hon
      obtain ⟨k1, k2, k3⟩ := mic_level_general_store_on cfg w2 a rest count hon2
      refine ⟨by rw [h1, k1], ?_⟩
      unfold SameButDebug
      rw [h2, h3, k2, k3, hhw]
      exact ⟨rfl, hb, hl, hr, hs, rfl⟩

theorem debug_store_ret (w : World) (v : Int) (rest : List Int) (count : Nat) :
    (debug_store w (v :: rest) count).1 = (count : Int) := by
  unfold debug_store
  simp only [sscanf_d, ne_eq, not_true_eq_false, if_false]
  split_ifs <;> rfl

theorem debug_store_congr (w1 w2 : World) (buf : List Int) (count : Nat)
    (h : SameButDebug w1 w2) :
    (debug_store w1 buf count).1 = (debug_store w2 buf count).1 ∧
    SameButDebug (debug_store w1 buf count).2 (debug_store w2 buf count).2 := by
  obtain ⟨hhw, hb, hl, hr, hs, hm⟩ := h
  obtain ⟨a0, _, a1, a2, a3, a4, a5⟩ := debug_store_st w1 buf count
  obtain ⟨b0, _, b1, b2, b3, b4, b5⟩ := debug_store_st w2 buf count
  refine ⟨?_, ?_⟩
  · rcases buf with _ | ⟨v, rest⟩
    · rw [debug_store_einval w1 [] count (by simp [sscanf_d]),
        debug_store_einval w2 [] count (by simp [sscanf_d])]
    · rw [debug_store_ret, debug_store_ret]
  · unfold SameButDebug
    rw [a0, a1, a2, a3, a4, a5, b0, b1, b2, b3, b4, b5]
    exact ⟨hhw, hb, hl, hr, hs, hm⟩

theorem write_congr (cfg : Config) (w1 w2 : World) (op : Write) (h : SameButDebug w1 w2) :
    (write cfg w1 op).1 = (write cfg w2 op).1 ∧
    SameButDebug (write cfg w1 op).2 (write cfg w2 op).2 := by
  cases op with
  | master buf count => exact boeffla_sound_store_congr cfg w1 w2 buf count h
  | headphone buf count => exact headphone_volume_store_congr cfg w1 w2 buf count h
  | speaker buf count => exact speaker_volume_store_congr cfg w1 w2 buf count h
  | mic buf count => exact mic_level_general_store_congr cfg w1 w2 buf count h
  | debug buf count => exact debug_store_congr w1 w2 buf count h

theorem read_congr (w1 w2 : World) (r : Read) (h : SameButDebug w1 w2) (hr : r ≠ Read.debug) :
    read w1 r = read w2 r := by
  obtain ⟨hhw, hb, _, _, _, _⟩ := h
  cases r with
  | master => simp only [read, boeffla_sound_show, hb]
  | headphone => simp only [read, headphone_volume_show, hhw]
  | speaker => simp only [read, speaker_volume_show, hhw]
  | mic => simp only [read, mic_level_general_show, hhw]
  | debug => exact absurd rfl hr
  | version => rfl

theorem write_quiet (cfg : Config) (w : World) (op : Write) (hq : w.st.debug = 0) :
    (write cfg w op).2.klog = w.klog := by
  cases op with
  | master buf count =>
    simp only [write, boeffla_sound_store, reset_boeffla_sound, reset_audio_hub, printk]
    rcases buf with _ | ⟨v, rest⟩
    · simp [sscanf_d]
    · simp only [sscanf_d, ne_eq, not_true_eq_false, if_false, hq]
      split_ifs <;> simp
  | headphone buf count =>
    simp only [write, headphone_volume_store, printk]
    rcases buf with _ | ⟨a, _ | ⟨b, rest⟩⟩ <;> split_ifs <;> simp_all [sscanf_d_d]
  | speaker buf count =>
    simp only [write, speaker_volume_store, printk]
    rcases buf with _ | ⟨a, _ | ⟨b, rest⟩⟩ <;> split_ifs <;> simp_all [sscanf_d_d]
  | mic buf count =>
    simp only [write, mic_level_general_store, printk]
    rcases buf with _ | ⟨a, rest⟩ <;> split_ifs <;> simp_all [sscanf_d]
  | debug buf count => exact (debug_store_st w buf count).2.1

/-! ## Lemmas about frames and the speaker word -/

theorem boeffla_sound_init_fail (cfg : Config) (w : World) :
    boeffla_sound_init cfg false w = (0, printk w Printk.sysfs_failed) := by
  unfold boeffla_sound_init
  simp

theorem boeffla_sound_init_hw (cfg : Config) (sysfs_ok : Bool) (w : World) :
    (boeffla_sound_init cfg sysfs_ok w).2.hw = w.hw := by
  cases sysfs_ok with
  | false => rw [boeffla_sound_init_fail]; rfl
  | true =>
    unfold boeffla_sound_init
    simp only [Bool.true_eq_false, if_false, printk, reset_boeffla_sound_hw]

theorem headphone_volume_store_frame (cfg : Config) (w : World) (buf : List Int)
    (count : Nat) :
    (headphone_volume_store cfg w buf count).2.st.boeffla_sound = w.st.boeffla_sound ∧
    (headphone_volume_store cfg w buf count).2.st.debug = w.st.debug ∧
    (headphone_volume_store cfg w buf count).2.st.speaker_volume = w.st.speaker_volume ∧
    (headphone_volume_store cfg w buf count).2.st.mic_level_general = w.st.mic_level_general ∧
    (headphone_volume_store cfg w buf count).2.hw.speaker_gain = w.hw.speaker_gain ∧
    (headphone_volume_store cfg w buf count).2.hw.mic_gain_general = w.hw.mic_gain_general := by
  by_cases hon : w.st.boeffla_sound = 0
  · rw [headphone_volume_store_off cfg w buf count hon]
    exact ⟨rfl, rfl, rfl, rfl, rfl, rfl⟩
  · rcases buf with _ | ⟨a, _ | ⟨b, rest⟩⟩
    · rw [headphone_volume_store_einval cfg w [] count hon (by simp [sscanf_d_d])]
      exact ⟨rfl, rfl, rfl, rfl, rfl, rfl⟩
    · rw [headphone_volume_store_einval cfg w [a] count hon (by simp [sscanf_d_d])]
      exact ⟨rfl, rfl, rfl, rfl, rfl, rfl⟩
    · obtain ⟨_, h2, h3⟩ := headphone_volume_store_on cfg w a b rest count hon
      rw [h2, h3]
      exact ⟨rfl, rfl, rfl, rfl, rfl, rfl⟩

theorem speaker_volume_store_frame (cfg : Config) (w : World) (buf : List Int)
    (count : Nat) :
    (speaker_volume_store cfg w buf count).2.st.boeffla_sound = w.st.boeffla_sound ∧
    (speaker_volume_store cfg w buf count).2.st.debug = w.st.debug ∧
    (speaker_volume_store cfg w buf count).2.st.headphone_volume_l = w.st.headphone_volume_l ∧
    (speaker_volume_store cfg w buf count).2.st.headphone_volume_r = w.st.headphone_volume_r ∧
    (speaker_volume_store cfg w buf count).2.st.mic_level_general = w.st.mic_level_general ∧
    (speaker_volume_store cfg w buf count).2.hw.headphone_gain_l = w.hw.headphone_gain_l ∧
    (speaker_volume_store cfg w buf count).2.hw.headphone_gain_r = w.hw.headphone_gain_r ∧
    (speaker_volume_store cfg w buf count).2.hw.mic_gain_general = w.hw.mic_gain_general := by
  by_cases hon : w.st.boeffla_sound = 0
  · rw [speaker_volume_store_off cfg w buf count hon]
    exact ⟨rfl, rfl, rfl, rfl, rfl, rfl, rfl, rfl⟩
  · rcases buf with _ | ⟨a, _ | ⟨b, rest⟩⟩
    · rw [speaker_volume_store_einval cfg w [] count hon (by simp [sscanf_d_d])]
      exact ⟨rfl, rfl, rfl, rfl, rfl, rfl, rfl, rfl⟩
    · rw [speaker_volume_store_einval cfg w [a] count hon (by simp [sscanf_d_d])]
      exact ⟨rfl, rfl, rfl, rfl, rfl, rfl, rfl, rfl⟩
    · obtain ⟨_, h2, h3⟩ := speaker_volume_store_on cfg w a b rest count hon
      rw [h2, h3]
      exact ⟨rfl, rfl, rfl, rfl, rfl, rfl, rfl, rfl⟩

theorem mic_level_general_store_frame (cfg : Config) (w : World) (buf : List Int)
    (count : Nat) :
    (mic_level_general_store cfg w buf count).2.st.boeffla_sound = w.st.boeffla_sound ∧
    (mic_level_general_store cfg w buf count).2.st.debug = w.st.debug ∧
    (mic_level_general_store cfg w buf count).2.st.headphone_volume_l
      = w.st.headphone_volume_l ∧
    (mic_level_general_store cfg w buf count).2.st.headphone_volume_r
      = w.st.headphone_volume_r ∧
    (mic_level_general_store cfg w buf count).2.st.speaker_volume = w.st.speaker_volume ∧
    (mic_level_general_store cfg w buf count).2.hw.headphone_gain_l = w.hw.headphone_gain_l ∧
    (mic_level_general_store cfg w buf count).2.hw.headphone_gain_r = w.hw.headphone_gain_r ∧
    (mic_level_general_store cfg w buf count).2.hw.speaker_gain = w.hw.speaker_gain := by
  by_cases hon : w.st.boeffla_sound = 0
  · rw [mic_level_general_store_off cfg w buf count hon]
    exact ⟨rfl, rfl, rfl, rfl, rfl, rfl, rfl, rfl⟩
  · rcases buf with _ | ⟨a, rest⟩
    · rw [mic_level_general_store_einval cfg w [] count hon (by simp [sscanf_d])]
      exact ⟨rfl, rfl, rfl, rfl, rfl, rfl, rfl, rfl⟩
    · obtain ⟨_, h2, h3⟩ := mic_level_general_store_on cfg w a rest count hon
      rw [h2, h3]
      exact ⟨rfl, rfl, rfl, rfl, rfl, rfl, rfl, rfl⟩

theorem write_low_byte (cfg : Config) (w : World) (op : Write) :
    and_0x00FF (get_speaker_gain (write cfg w op).2.hw) = and_0x00FF (get_speaker_gain w.hw) := by
  cases op with
  | master buf count =>
    simp only [write]
    rcases buf with _ | ⟨v, rest⟩
    · rw [boeffla_sound_store_einval cfg w [] count (by simp [sscanf_d])]
    · by_cases hv : v = 0 ∨ v = 1
      · rw [(boeffla_sound_store_accept cfg w v rest count hv).2.2]
        simp only [set_mic_gain_general, set_speaker_gain, get_speaker_gain]
        exact (pack_bytes _ _).1
      · rw [boeffla_sound_store_reject cfg w v rest count hv]
  | headphone buf count =>
    simp only [write, get_speaker_gain]
    rw [(headphone_volume_store_frame cfg w buf count).2.2.2.2.1]
  | speaker buf count =>
    simp only [write]
    by_cases hon : w.st.boeffla_sound = 0
    · rw [speaker_volume_store_off cfg w buf count hon]
    · rcases buf with _ | ⟨a, _ | ⟨b, rest⟩⟩
      · rw [speaker_volume_store_einval cfg w [] count hon (by simp [sscanf_d_d])]
      · rw [speaker_volume_store_einval cfg w [a] count hon (by simp [sscanf_d_d])]
      · rw [(speaker_volume_store_on cfg w a b rest count hon).2.2]
        simp only [set_speaker_gain, get_speaker_gain]
        exact (pack_bytes _ _).1
  | mic buf count =>
    simp only [write, get_speaker_gain]
    rw [(mic_level_general_store_frame cfg w buf count).2.2.2.2.2.2.2]
  | debug buf count =>
    simp only [write]
    rw [(debug_store_st w buf count).1]

theorem step_low_byte (cfg : Config) (w : World) (op : Op) :
    and_0x00FF (get_speaker_gain (step cfg w op).hw) = and_0x00FF (get_speaker_gain w.hw) := by
  cases op with
  | startup sysfs_ok => simp only [step, boeffla_sound_init_hw]
  | write op => exact write_low_byte cfg w op
  | read r => rfl

theorem exec_low_byte (cfg : Config) (ops : List Op) :
    ∀ w : World,
      and_0x00FF (get_speaker_gain (exec cfg w ops).hw) = and_0x00FF (get_speaker_gain w.hw) := by
  induction ops with
  | nil => intro w; rfl
  | cons op ops ih =>
    intro w
    simp only [exec]
    rw [ih, step_low_byte]

theorem speaker_word_show (c r : Int) :
    wrap_int (shr8 (wrap_int (shl8 c + and_0x00FF r) % 65536) * -1) = -(c % 256) := by
  unfold and_0x00FF shr8 shl8 wrap_int
  omega

theorem headphone_volume_show_eq (w : World) :
    headphone_volume_show w =
      (if get_headphone_gain_l w.hw > 127 then get_headphone_gain_l w.hw - 256
        else get_headphone_gain_l w.hw,
       if get_headphone_gain_r w.hw > 127 then get_headphone_gain_r w.hw - 256
        else get_headphone_gain_r w.hw) := rfl

theorem speaker_volume_show_eq (w : World) :
    speaker_volume_show w =
      (wrap_int (shr8 (get_speaker_gain w.hw) * -1),
       wrap_int (shr8 (get_speaker_gain w.hw) * -1)) := rfl

theorem reset_audio_hub_low_byte (w : World) :
    and_0x00FF (get_speaker_gain (reset_audio_hub w).hw) = and_0x00FF (get_speaker_gain w.hw) := by
  rw [reset_audio_hub_hw]
  simp only [set_mic_gain_general, set_speaker_gain, get_speaker_gain]
  exact (pack_bytes _ _).1

theorem debug_store_parsed (w : World) (v : Int) (rest : List Int) (count : Nat) :
    debug_store w (v :: rest) count =
      ((count : Int),
        { w with st := { w.st with debug := if v = 0 ∨ v = 1 then v else w.st.debug } }) := by
  unfold debug_store
  simp only [sscanf_d, ne_eq, not_true_eq_false, if_false]
  split_ifs <;> rfl

/-! ## The claims, continued -/

/-- C11 as stated fails for the debug read: the sample world and the same
world with the debug flag cleared agree on the master switch, the stored
gains and the registers, yet the debug read prints 1 in one and 0 in the
other. -/
theorem debug_read_reports_the_flag :
    SameButDebug sample_world sample_world_quiet ∧
    read sample_world Read.debug = Shown.one 1 ∧
    read sample_world_quiet Read.debug = Shown.one 0 ∧
    read sample_world Read.debug ≠ read sample_world_quiet Read.debug := by
  decide

/-- C11 amended: two worlds that differ only in the debug flag (and the log)
give, for every write with every buffer, the same return value, the same
resulting master switch and stored gains and the same register contents, and
for every read other than the debug read the same printed values; with the
debug flag at 0 a write adds nothing to the kernel log. -/
theorem debug_flag_noninterference (cfg : Config) (w1 w2 : World) (op : Write) (r : Read)
    (h : SameButDebug w1 w2) (hr : r ≠ Read.debug) :
    (write cfg w1 op).1 = (write cfg w2 op).1 ∧
    SameButDebug (write cfg w1 op).2 (write cfg w2 op).2 ∧
    read w1 r = read w2 r ∧
    (w1.st.debug = 0 → (write cfg w1 op).2.klog = w1.klog) :=
  ⟨(write_congr cfg w1 w2 op h).1, (write_congr cfg w1 w2 op h).2, read_congr w1 w2 r h hr,
    write_quiet cfg w1 op⟩

/-- Instance of C11 amended: a headphone write of 50 -50 and a headphone read,
from the sample world with the debug flag on and with it off. -/
theorem debug_flag_noninterference_witness :
    SameButDebug sample_world sample_world_quiet ∧ Read.headphone ≠ Read.debug ∧
    (write sample_config sample_world (Write.headphone [50, -50] 7)).1
      = (write sample_config sample_world_quiet (Write.headphone [50, -50] 7)).1 ∧
    SameButDebug (write sample_config sample_world (Write.headphone [50, -50] 7)).2
      (write sample_config sample_world_quiet (Write.headphone [50, -50] 7)).2 ∧
    read sample_world Read.headphone = read sample_world_quiet Read.headphone :=
  have h := debug_flag_noninterference sample_config sample_world sample_world_quiet
    (Write.headphone [50, -50] 7) Read.headphone (by decide) (by decide)
  ⟨by decide, by decide, h.1, h.2.1, h.2.2.1⟩

/-- C12 as stated fails when sysfs_create_group fails: with a header whose
BOEFFLA_SOUND_DEFAULT is 1 and HEADPHONE_DEFAULT is 5, the function returns
before assigning anything, so the master switch and the headphone gain keep
the value 0 of a zero-filled static. -/
theorem startup_without_sysfs_group_assigns_nothing :
    sample_config_alt.BOEFFLA_SOUND_DEFAULT = 1 ∧
    (boeffla_sound_init sample_config_alt false
      { st := static_zero, hw := sample_world.hw, klog := [] }).2.st.boeffla_sound = 0 ∧
    (boeffla_sound_init sample_config_alt false
      { st := static_zero, hw := sample_world.hw, klog := [] }).2.st.boeffla_sound
      ≠ sample_config_alt.BOEFFLA_SOUND_DEFAULT ∧
    (boeffla_sound_init sample_config_alt false
      { st := static_zero, hw := sample_world.hw, klog := [] }).2.st.headphone_volume_l
      ≠ sample_config_alt.HEADPHONE_DEFAULT := by
  decide

/-- C12 amended: boeffla_sound_init returns 0 and writes no register. When
the control surface was registered, the master switch equals
BOEFFLA_SOUND_DEFAULT, the debug flag DEBUG_DEFAULT and the four stored gains
their default constants afterwards; when sysfs_create_group failed, the
variables are left as they were. -/
theorem startup_postcondition (cfg : Config) (w : World) :
    (boeffla_sound_init cfg true w).1 = 0 ∧
    (boeffla_sound_init cfg true w).2.st =
      { boeffla_sound := cfg.BOEFFLA_SOUND_DEFAULT
        debug := cfg.DEBUG_DEFAULT
        headphone_volume_l := cfg.HEADPHONE_DEFAULT
        headphone_volume_r := cfg.HEADPHONE_DEFAULT
        speaker_volume := cfg.SPEAKER_DEFAULT
        mic_level_general := cfg.MICLEVEL_DEFAULT_GENERAL } ∧
    (boeffla_sound_init cfg true w).2.hw = w.hw ∧
    (boeffla_sound_init cfg false w).1 = 0 ∧
    (boeffla_sound_init cfg false w).2.st = w.st ∧
    (boeffla_sound_init cfg false w).2.hw = w.hw := by
  refine ⟨?_, boeffla_sound_init_st cfg w, boeffla_sound_init_hw cfg true w, ?_, ?_,
    boeffla_sound_init_hw cfg false w⟩
  · unfold boeffla_sound_init
    simp
  · rw [boeffla_sound_init_fail]
  · rw [boeffla_sound_init_fail]
    rfl

/-- C13: the byte-to-signed conversion of the headphone read. For raw
register values in 0..255 each reported value is raw - 256 when raw > 127
and raw otherwise, lies in -128..127 and is congruent to raw modulo 256; for
every v in -128..127 a register holding v mod 256 reads as v; raw 200 reads
as -56 and raw 100 as 100. -/
theorem headphone_read_byte_to_signed (w : World)
    (hl : 0 ≤ get_headphone_gain_l w.hw ∧ get_headphone_gain_l w.hw ≤ 255)
    (hr : 0 ≤ get_headphone_gain_r w.hw ∧ get_headphone_gain_r w.hw ≤ 255) :
    ((headphone_volume_show w).1 = (if get_headphone_gain_l w.hw > 127
        then get_headphone_gain_l w.hw - 256 else get_headphone_gain_l w.hw) ∧
      -128 ≤ (headphone_volume_show w).1 ∧ (headphone_volume_show w).1 ≤ 127 ∧
      (headphone_volume_show w).1 % 256 = get_headphone_gain_l w.hw % 256) ∧
    ((headphone_volume_show w).2 = (if get_headphone_gain_r w.hw > 127
        then get_headphone_gain_r w.hw - 256 else get_headphone_gain_r w.hw) ∧
      -128 ≤ (headphone_volume_show w).2 ∧ (headphone_volume_show w).2 ≤ 127 ∧
      (headphone_volume_show w).2 % 256 = get_headphone_gain_r w.hw % 256) ∧
    (∀ v : Int, -128 ≤ v → v ≤ 127 →
      headphone_volume_show
        { w with hw := set_headphone_gain_r (set_headphone_gain_l w.hw v) v } = (v, v)) ∧
    headphone_volume_show
      { w with hw := { w.hw with headphone_gain_l := 200, headphone_gain_r := 100 } }
      = (-56, 100) := by
  refine ⟨?_, ?_, ?_, ?_⟩
  · rw [headphone_volume_show_eq]
    dsimp only
    refine ⟨rfl, ?_, ?_, ?_⟩ <;> split_ifs <;> omega
  · rw [headphone_volume_show_eq]
    dsimp only
    refine ⟨rfl, ?_, ?_, ?_⟩ <;> split_ifs <;> omega
  · intro v h1 h2
    rw [headphone_volume_show_eq]
    simp only [get_headphone_gain_l, get_headphone_gain_r, set_headphone_gain_l,
      set_headphone_gain_r, Prod.mk.injEq]
    exact ⟨byte_to_signed_of_mod v h1 h2, byte_to_signed_of_mod v h1 h2⟩
  · rw [headphone_volume_show_eq]
    simp [get_headphone_gain_l, get_headphone_gain_r]

/-- Instance of C13: the sample world, whose headphone registers hold 3 and
252, reads as Left 3, Right -4. -/
theorem headphone_read_byte_to_signed_witness :
    (0 ≤ get_headphone_gain_l sample_world.hw ∧ get_headphone_gain_l sample_world.hw ≤ 255) ∧
    (0 ≤ get_headphone_gain_r sample_world.hw ∧ get_headphone_gain_r sample_world.hw ≤ 255) ∧
    (headphone_volume_show sample_world).1 = 3 ∧
    (headphone_volume_show sample_world).2 = -4 :=
  have h := headphone_read_byte_to_signed sample_world (by decide) (by decide)
  ⟨by decide, by decide, h.1.1.trans (by decide), h.2.1.1.trans (by decide)⟩

/-- C14: on the same raw register value (any C int) the conversion of the mic
read, (256 - val) * -1 when val > 127 and val otherwise, gives the same
result as the conversion of the headphone read, val - 256 when val > 127 and
val otherwise, for the left and for the right channel. -/
theorem mic_conversion_eq_headphone_conversion (w : World)
    (hraw : is_c_int (get_mic_gain_general w.hw))
    (hl : get_headphone_gain_l w.hw = get_mic_gain_general w.hw)
    (hr : get_headphone_gain_r w.hw = get_mic_gain_general w.hw) :
    mic_level_general_show w = (headphone_volume_show w).1 ∧
    mic_level_general_show w = (headphone_volume_show w).2 := by
  rw [headphone_volume_show_eq]
  unfold mic_level_general_show
  unfold is_c_int at hraw
  simp only [hl, hr]
  unfold wrap_int
  constructor <;> split_ifs <;> omega

/-- Instance of C14: all three byte registers hold 200; both reads give -56. -/
theorem mic_conversion_eq_headphone_conversion_witness :
    is_c_int (get_mic_gain_general
      { headphone_gain_l := 200, headphone_gain_r := 200, speaker_gain := 0,
        mic_gain_general := 200 }) ∧
    mic_level_general_show
      { sample_world with hw :=
        { headphone_gain_l := 200, headphone_gain_r := 200, speaker_gain := 0,
          mic_gain_general := 200 } } = -56 ∧
    (headphone_volume_show
      { sample_world with hw :=
        { headphone_gain_l := 200, headphone_gain_r := 200, speaker_gain := 0,
          mic_gain_general := 200 } }).1 = -56 :=
  have h := mic_conversion_eq_headphone_conversion
    { sample_world with hw :=
      { headphone_gain_l := 200, headphone_gain_r := 200, speaker_gain := 0,
        mic_gain_general := 200 } } (by decide) (by decide) (by decide)
  ⟨by decide, by decide, h.1.symm.trans (by decide)⟩

/-- C15: a debug write whose scanned value is 0 or 1 sets the debug flag to
that value, any other scanned value leaves the flag as it was; in both cases
the call returns count and the master switch, the four stored gains, the
registers (and the log) are unchanged. The master switch is not consulted. -/
theorem debug_write_sets_only_the_flag (w : World) (v : Int) (rest : List Int)
    (count : Nat) :
    (debug_store w (v :: rest) count).1 = (count : Int) ∧
    (debug_store w (v :: rest) count).2.st.debug
      = (if v = 0 ∨ v = 1 then v else w.st.debug) ∧
    (debug_store w (v :: rest) count).2.st.boeffla_sound = w.st.boeffla_sound ∧
    (debug_store w (v :: rest) count).2.st.headphone_volume_l = w.st.headphone_volume_l ∧
    (debug_store w (v :: rest) count).2.st.headphone_volume_r = w.st.headphone_volume_r ∧
    (debug_store w (v :: rest) count).2.st.speaker_volume = w.st.speaker_volume ∧
    (debug_store w (v :: rest) count).2.st.mic_level_general = w.st.mic_level_general ∧
    (debug_store w (v :: rest) count).2.hw = w.hw ∧
    (debug_store w (v :: rest) count).2.klog = w.klog := by
  rw [debug_store_parsed]
  exact ⟨rfl, rfl, rfl, rfl, rfl, rfl, rfl, rfl, rfl⟩

/-- C17 as stated fails for positive volumes: on the sample world (switch on,
16-bit register content 0xF955, range -30..30) a speaker write of 10 stores
10, and the following speaker read reports -246 for Left and Right. -/
theorem speaker_round_trip_fails_for_positive :
    sample_world.st.boeffla_sound ≠ 0 ∧
    (0 ≤ get_speaker_gain sample_world.hw ∧ get_speaker_gain sample_world.hw < 65536) ∧
    clamp 10 sample_config.SPEAKER_MIN sample_config.SPEAKER_MAX = 10 ∧
    (speaker_volume_store sample_config sample_world [10, 10] 6).2.st.speaker_volume = 10 ∧
    speaker_volume_show (speaker_volume_store sample_config sample_world [10, 10] 6).2
      = (-246, -246) ∧
    speaker_volume_show (speaker_volume_store sample_config sample_world [10, 10] 6).2
      ≠ (clamp 10 sample_config.SPEAKER_MIN sample_config.SPEAKER_MAX,
         clamp 10 sample_config.SPEAKER_MIN sample_config.SPEAKER_MAX) := by
  decide

/-- C17 amended: with the master switch on and a 16-bit speaker register, for
every integer v and every prior register content, a speaker write of v
followed by a speaker read reports clamp(v, SPEAKER_MIN, SPEAKER_MAX) for
both Left and Right whenever that clamped value lies in -255..0. -/
theorem speaker_round_trip_nonpositive (cfg : Config) (w : World) (v u : Int)
    (rest : List Int) (count : Nat) (hon : w.st.boeffla_sound ≠ 0)
    (hc : -255 ≤ clamp v cfg.SPEAKER_MIN cfg.SPEAKER_MAX ∧
      clamp v cfg.SPEAKER_MIN cfg.SPEAKER_MAX ≤ 0) :
    speaker_volume_show (speaker_volume_store cfg w (v :: u :: rest) count).2
      = (clamp v cfg.SPEAKER_MIN cfg.SPEAKER_MAX, clamp v cfg.SPEAKER_MIN cfg.SPEAKER_MAX) := by
  obtain ⟨_, _, h3⟩ := speaker_volume_store_on cfg w v u rest count hon
  rw [speaker_volume_show_eq, h3]
  simp only [set_speaker_gain, get_speaker_gain]
  rw [speaker_word_show]
  have e : -(wrap_int (clamp v cfg.SPEAKER_MIN cfg.SPEAKER_MAX * -1) % 256)
      = clamp v cfg.SPEAKER_MIN cfg.SPEAKER_MAX := by
    unfold wrap_int
    omega
  rw [e]

/-- Instance of C17 amended: writing -10 reads back -10 on both fields. -/
theorem speaker_round_trip_nonpositive_witness :
    sample_world.st.boeffla_sound ≠ 0 ∧
    (-255 ≤ clamp (-10) sample_config.SPEAKER_MIN sample_config.SPEAKER_MAX ∧
      clamp (-10) sample_config.SPEAKER_MIN sample_config.SPEAKER_MAX ≤ 0) ∧
    speaker_volume_show (speaker_volume_store sample_config sample_world [-10, 0] 6).2
      = (-10, -10) :=
  ⟨by decide, by decide,
    (speaker_round_trip_nonpositive sample_config sample_world (-10) 0 [] 6
      (by decide) (by decide)).trans (by decide)⟩

/-- C18 as stated fails. With SPEAKER_DEFAULT = -5 a master switch write of 1
stores speaker_volume -5 and writes the register 0xFB55, which the speaker
read reports as -251, while a speaker write of -5 writes 0x0555; and with
HEADPHONE_DEFAULT = 200 the byte-wide headphone registers read back -56. -/
theorem reset_speaker_word_mismatch :
    (boeffla_sound_store sample_config_alt sample_world [1] 2).2.st.speaker_volume = -5 ∧
    speaker_volume_show (boeffla_sound_store sample_config_alt sample_world [1] 2).2
      = (-251, -251) ∧
    get_speaker_gain (boeffla_sound_store sample_config_alt sample_world [1] 2).2.hw = 64341 ∧
    get_speaker_gain (speaker_volume_store sample_config_alt sample_world [-5, 0] 5).2.hw
      = 1365 ∧
    headphone_volume_show
      (boeffla_sound_store { sample_config with HEADPHONE_DEFAULT := 200, HEADPHONE_MAX := 300 }
        sample_world [1] 2).2 = (-56, -56) := by
  decide

/-- C18 amended: when HEADPHONE_DEFAULT and MICLEVEL_DEFAULT_GENERAL lie in
-128..127 and SPEAKER_DEFAULT is 0 and lies in the speaker range, then after
an accepted master switch write (0 or 1) the headphone read reports
(HEADPHONE_DEFAULT, HEADPHONE_DEFAULT), the mic read reports
MICLEVEL_DEFAULT_GENERAL, the speaker read reports SPEAKER_DEFAULT, and the
speaker register equals the one a speaker write of the stored speaker_volume
produces on the same prior register content. -/
theorem master_write_readback (cfg : Config) (w w0 : World) (v u : Int)
    (rest rest0 : List Int) (count count0 : Nat) (hv : v = 0 ∨ v = 1)
    (hH : -128 ≤ cfg.HEADPHONE_DEFAULT ∧ cfg.HEADPHONE_DEFAULT ≤ 127)
    (hM : -128 ≤ cfg.MICLEVEL_DEFAULT_GENERAL ∧ cfg.MICLEVEL_DEFAULT_GENERAL ≤ 127)
    (hS : cfg.SPEAKER_DEFAULT = 0)
    (hR : cfg.SPEAKER_MIN ≤ cfg.SPEAKER_DEFAULT ∧ cfg.SPEAKER_DEFAULT ≤ cfg.SPEAKER_MAX)
    (hon0 : w0.st.boeffla_sound ≠ 0)
    (hreg : get_speaker_gain w0.hw = get_speaker_gain w.hw) :
    headphone_volume_show (boeffla_sound_store cfg w (v :: rest) count).2
      = (cfg.HEADPHONE_DEFAULT, cfg.HEADPHONE_DEFAULT) ∧
    mic_level_general_show (boeffla_sound_store cfg w (v :: rest) count).2
      = cfg.MICLEVEL_DEFAULT_GENERAL ∧
    speaker_volume_show (boeffla_sound_store cfg w (v :: rest) count).2
      = (cfg.SPEAKER_DEFAULT, cfg.SPEAKER_DEFAULT) ∧
    get_speaker_gain
      (speaker_volume_store cfg w0
        ((boeffla_sound_store cfg w (v :: rest) count).2.st.speaker_volume :: u :: rest0)
        count0).2.hw
      = get_speaker_gain (boeffla_sound_store cfg w (v :: rest) count).2.hw := by
  obtain ⟨_, h2, h3⟩ := boeffla_sound_store_accept cfg w v rest count hv
  refine ⟨?_, ?_, ?_, ?_⟩
  · rw [headphone_volume_show_eq, h3]
    simp only [get_headphone_gain_l, get_headphone_gain_r, set_headphone_gain_l,
      set_headphone_gain_r, set_speaker_gain, set_mic_gain_general, Prod.mk.injEq]
    exact ⟨byte_to_signed_of_mod _ hH.1 hH.2, byte_to_signed_of_mod _ hH.1 hH.2⟩
  · unfold mic_level_general_show
    rw [h3]
    simp only [get_mic_gain_general, set_mic_gain_general]
    unfold wrap_int
    split_ifs <;> omega
  · rw [speaker_volume_show_eq, h3]
    simp only [set_mic_gain_general, set_speaker_gain, get_speaker_gain, set_headphone_gain_r,
      set_headphone_gain_l]
    rw [speaker_word_show, hS]
    rfl
  · rw [h2, h3, (speaker_volume_store_on cfg w0 _ u rest0 count0 hon0).2.2]
    simp only [set_mic_gain_general, set_speaker_gain, get_speaker_gain, set_headphone_gain_r,
      set_headphone_gain_l] at hreg ⊢
    rw [clamp_eq_self _ _ _ hR.1 hR.2, hS, hreg]
    rfl

/-- Instance of C18 amended: the sample constants (all defaults 0), a master
switch write of 1, compared with a speaker write of 0 on the same world. -/
theorem master_write_readback_witness :
    headphone_volume_show (boeffla_sound_store sample_config sample_world [1] 2).2 = (0, 0) ∧
    mic_level_general_show (boeffla_sound_store sample_config sample_world [1] 2).2 = 0 ∧
    speaker_volume_show (boeffla_sound_store sample_config sample_world [1] 2).2 = (0, 0) ∧
    get_speaker_gain (speaker_volume_store sample_config sample_world [0, 0] 4).2.hw
      = get_speaker_gain (boeffla_sound_store sample_config sample_world [1] 2).2.hw :=
  have h := master_write_readback sample_config sample_world sample_world 1 0 [] [] 2 4
    (by decide) (by decide) (by decide) (by decide) (by decide) (by decide) rfl
  ⟨h.1, h.2.1, h.2.2.1, h.2.2.2⟩

/-- C19: frame of the gain writes, for every buffer and whether the master
switch is on or off. A headphone write leaves the master switch, the debug
flag, speaker_volume, mic_level_general, the speaker register and the mic
register as they were; a speaker write leaves the master switch, the debug
flag, both headphone gains, mic_level_general, both headphone registers and
the mic register; a mic write leaves the master switch, the debug flag, both
headphone gains, speaker_volume, both headphone registers and the speaker
register. -/
theorem gain_write_frame (cfg : Config) (w : World) (buf : List Int) (count : Nat) :
    ((headphone_volume_store cfg w buf count).2.st.boeffla_sound = w.st.boeffla_sound ∧
      (headphone_volume_store cfg w buf count).2.st.debug = w.st.debug ∧
      (headphone_volume_store cfg w buf count).2.st.speaker_volume = w.st.speaker_volume ∧
      (headphone_volume_store cfg w buf count).2.st.mic_level_general
        = w.st.mic_level_general ∧
      (headphone_volume_store cfg w buf count).2.hw.speaker_gain = w.hw.speaker_gain ∧
      (headphone_volume_store cfg w buf count).2.hw.mic_gain_general
        = w.hw.mic_gain_general) ∧
    ((speaker_volume_store cfg w buf count).2.st.boeffla_sound = w.st.boeffla_sound ∧
      (speaker_volume_store cfg w buf count).2.st.debug = w.st.debug ∧
      (speaker_volume_store cfg w buf count).2.st.headphone_volume_l
        = w.st.headphone_volume_l ∧
      (speaker_volume_store cfg w buf count).2.st.headphone_volume_r
        = w.st.headphone_volume_r ∧
      (speaker_volume_store cfg w buf count).2.st.mic_level_general
        = w.st.mic_level_general ∧
      (speaker_volume_store cfg w buf count).2.hw.headphone_gain_l = w.hw.headphone_gain_l ∧
      (speaker_volume_store cfg w buf count).2.hw.headphone_gain_r = w.hw.headphone_gain_r ∧
      (speaker_volume_store cfg w buf count).2.hw.mic_gain_general
        = w.hw.mic_gain_general) ∧
    ((mic_level_general_store cfg w buf count).2.st.boeffla_sound = w.st.boeffla_sound ∧
      (mic_level_general_store cfg w buf count).2.st.debug = w.st.debug ∧
      (mic_level_general_store cfg w buf count).2.st.headphone_volume_l
        = w.st.headphone_volume_l ∧
      (mic_level_general_store cfg w buf count).2.st.headphone_volume_r
        = w.st.headphone_volume_r ∧
      (mic_level_general_store cfg w buf count).2.st.speaker_volume = w.st.speaker_volume ∧
      (mic_level_general_store cfg w buf count).2.hw.headphone_gain_l
        = w.hw.headphone_gain_l ∧
      (mic_level_general_store cfg w buf count).2.hw.headphone_gain_r
        = w.hw.headphone_gain_r ∧
      (mic_level_general_store cfg w buf count).2.hw.speaker_gain = w.hw.speaker_gain) :=
  ⟨headphone_volume_store_frame cfg w buf count, speaker_volume_store_frame cfg w buf count,
    mic_level_general_store_frame cfg w buf count⟩

/-- C20: the low byte (& 0x00FF) of the speaker register is the same after
any sequence of operations (startup with either outcome, master switch,
headphone, speaker, mic and debug writes with any buffer, and all reads) as
before it, for every initial register content; the resync of
reset_audio_hub alone preserves it as well. -/
theorem speaker_low_byte_invariant (cfg : Config) (w : World) (ops : List Op) :
    and_0x00FF (get_speaker_gain (exec cfg w ops).hw) = and_0x00FF (get_speaker_gain w.hw) ∧
    and_0x00FF (get_speaker_gain (reset_audio_hub w).hw)
      = and_0x00FF (get_speaker_gain w.hw) :=
  ⟨exec_low_byte cfg ops w, reset_audio_hub_low_byte w⟩

end BoefflaSound
